import Mathlib

/-!
# Verification of the Victor lift motor controller (`LiftController`)

This file gives a shallow embedding of the lift controller found in the
repository (the `Anki::Vector::LiftController` namespace: PID position
control, calibration state machine, burnout protection, enable/disable and
bracing supervision), and proves or refutes the frozen specification claims
about it.

Modelling conventions:
* `f32` values are embedded as `ℚ` (the claims are about control logic, not
  floating-point rounding).
* `u32` millisecond timestamps are embedded as `ℕ`; the firmware's
  `now - then` subtractions are truncated `ℕ` subtraction, which coincides
  with `u32` arithmetic on monotone clocks.
* All namespace-level mutable variables of the source become fields of one
  `LCState` structure; namespace-level `const` values that are plain
  numerals become Lean constants, and those whose numeric value comes from
  headers not present in the repository snapshot (angle limits, tolerances,
  degree-to-radian conversions, `CONTROL_DT`, ...) become fields of a
  `Params` structure carried inside the state.
* The HAL (`MotorGetPosition`, `MotorGetSpeed`, `GetTimeStamp`,
  `BatteryIsOnCharger`, `MotorGetCalibPower`, ...), the IMU/prox sensors and
  `PickAndPlaceController::IsCarryingBlock` are external collaborators: each
  control tick reads them from a `TickEnv` record.
* The `VelocityProfileGenerator` implementation is not part of the
  repository snapshot.  Modelled from the spec: the VPG is a leaf collaborator
  producing per-tick position/velocity samples, so its `Step` output is taken
  from the tick environment (`vpgPos`/`vpgVel`) and its `StartProfile*` calls
  have no effect on controller state.
* Outbound messages (`SendMotorCalibrationMsg`, `SendMotorAutoEnabledMsg`)
  and the powers handed to `HAL::MotorSetPower` are recorded in ghost lists
  (`msgs`, `powerTrace`); `completeVisits`, `tamperFired` and `reachedClip`
  are ghost observers of control flow (the `LCS_COMPLETE` branch body, the
  tamper-abort branch, and the final PID clip/actuation line).  Ghost fields
  are write-only instrumentation and never influence control flow.
* The non-`SIMULATOR` compilation branch is modelled (`DISABLE_MOTORS_ON_CHARGER`
  is 1 in the source).
-/

/-- `ABS(x)` / `fabsf(x)`: written with an executable conditional (the
lattice-derived `|·|` on `ℚ` does not evaluate by kernel reduction). -/
def absQ (x : ℚ) : ℚ := if x < 0 then -x else x

theorem absQ_eq_abs (x : ℚ) : absQ x = |x| := by
  unfold absQ
  split
  · rw [abs_of_neg]; assumption
  · rw [abs_of_nonneg]; linarith

/-- `MAX(a, b)` from the shared math macros (`a > b ? a : b`). -/
def maxQ (a b : ℚ) : ℚ := if a > b then a else b

/-- `MIN(a, b)` from the shared math macros (`a < b ? a : b`). -/
def minQ (a b : ℚ) : ℚ := if a < b then a else b

theorem maxQ_eq_max (a b : ℚ) : maxQ a b = max a b := by
  unfold maxQ
  split
  · rw [max_eq_left]; linarith
  · rw [max_eq_right]; linarith

theorem minQ_eq_min (a b : ℚ) : minQ a b = min a b := by
  unfold minQ
  split
  · rw [min_eq_left]; linarith
  · rw [min_eq_right]; linarith

/-- `CLIP(x, low, high)` from the shared math macros. -/
def clipQ (x lo hi : ℚ) : ℚ := minQ (maxQ x lo) hi

theorem clipQ_eq (x lo hi : ℚ) : clipQ x lo hi = min (max x lo) hi := by
  rw [clipQ, minQ_eq_min, maxQ_eq_max]

/-- `IN_RANGE(x, low, high)` from the shared math macros (as a `Bool`). -/
def inRangeQ (x lo hi : ℚ) : Bool := decide (lo ≤ x) && decide (x ≤ hi)

/-- `LiftCalibState` enumeration (`LCS_*`). -/
inductive LiftCalibState where
  | idle
  | lowerLift
  | waitForStop
  | setCurrAngle
  | complete
  deriving DecidableEq, Repr

/-- The calibration reasons used by the lift controller. -/
inductive MotorCalibrationReason where
  | startup
  | liftMotorBurnoutProtection
  | other
  deriving DecidableEq, Repr

/-- Outbound messages emitted by the controller. -/
inductive LCMsg where
  /-- `SendMotorCalibrationMsg(MOTOR_LIFT, calibrating, autoStarted)` -/
  | motorCalibration (calibrating : Bool) (autoStarted : Bool)
  /-- `SendMotorAutoEnabledMsg(MOTOR_LIFT, enabled)` -/
  | motorAutoEnabled (enabled : Bool)
  deriving DecidableEq, Repr

/-- Constants of the controller whose numeric values come from headers
outside the repository snapshot (physical limits, tolerances, control
period, degree conversions).  The claims hold for arbitrary values, with
explicitly stated side conditions where needed. -/
structure Params where
  /-- `LIFT_ANGLE_TOL` -/
  liftAngleTol : ℚ
  /-- `MIN_LIFT_ANGLE` -/
  minLiftAngle : ℚ
  /-- `MAX_LIFT_ANGLE` -/
  maxLiftAngle : ℚ
  /-- `LIFT_ANGLE_LOW_LIMIT_RAD = ConvertLiftHeightToLiftAngleRad(LIFT_HEIGHT_LOWDOCK)` -/
  liftAngleLowLimit : ℚ
  /-- `LIFT_ANGLE_HIGH_LIMIT_RAD = ConvertLiftHeightToLiftAngleRad(LIFT_HEIGHT_CARRY)` -/
  liftAngleHighLimit : ℚ
  /-- `DEG_TO_RAD(5.f)`, the no-D-term band width -/
  deg5Rad : ℚ
  /-- `UPWARDS_LIFT_MOTION_FOR_CALIB_ABORT_RAD = DEG_TO_RAD(10.f)` -/
  upwardsAbortRad : ℚ
  /-- `CHECKING_FOR_LOAD_ANGLE_DIFF_THRESH = DEG_TO_RAD_F32(1.f)` -/
  loadAngleDiffThresh : ℚ
  /-- `CONTROL_DT` -/
  controlDt : ℚ
  /-- `MAX_LIFT_SPEED_RAD_PER_S` -/
  maxLiftSpeed : ℚ
  /-- `MAX_LIFT_ACCEL_RAD_PER_S2` -/
  maxLiftAccel : ℚ
  /-- the `NEAR_ZERO` comparison threshold -/
  nearZeroEps : ℚ
  /-- `M_PI_F` (initial value of `maxSpeedRad_`) -/
  mpi : ℚ
  deriving DecidableEq, Repr

/-- `LIFT_STOP_TIME_MS` -/
def LIFT_STOP_TIME_MS : ℕ := 500
/-- `LIFT_RELAX_TIME_MS` -/
def LIFT_RELAX_TIME_MS : ℕ := 250
/-- `MAX_LIFT_CONSIDERED_STOPPED_RAD_PER_SEC` -/
def MAX_LIFT_CONSIDERED_STOPPED : ℚ := 1/1000
/-- `SPEED_FILTERING_COEFF` -/
def SPEED_FILTERING_COEFF : ℚ := 9/10
/-- `ANGLE_ERROR_SUM_DECAY_STEP` -/
def ANGLE_ERROR_SUM_DECAY_STEP : ℚ := 2/100
/-- `MAX_POWER_IN_POSITION_WHILE_CARRYING` -/
def MAX_POWER_IN_POSITION_WHILE_CARRYING : ℚ := 24/100
/-- `MAX_POWER_IN_POSITION` -/
def MAX_POWER_IN_POSITION : ℚ := 1/10
/-- `BURNOUT_TIME_THRESH_MS` -/
def BURNOUT_TIME_THRESH_MS : ℕ := 2000
/-- `IN_POSITION_TIME_MS` -/
def IN_POSITION_TIME_MS : ℕ := 100
/-- `UPWARDS_LIFT_MOTION_FOR_CALIB_ABORT_CNT` -/
def UPWARDS_ABORT_CNT : ℕ := 5
/-- `REENABLE_TIMEOUT_MS` -/
def REENABLE_TIMEOUT_MS : ℕ := 2000
/-- `BRACING_POWER` -/
def BRACING_POWER : ℚ := -(8/10)
/-- `UNBRACE_PERIOD_MS` -/
def UNBRACE_PERIOD_MS : ℕ := 200
/-- `CHECKING_FOR_LOAD_TIMEOUT_MS` -/
def CHECKING_FOR_LOAD_TIMEOUT_MS : ℕ := 500
/-- Initial (non-simulator) `Kp_` -/
def KP_INIT : ℚ := 3
/-- Initial (non-simulator) `Kd_` -/
def KD_INIT : ℚ := 3000
/-- Initial (non-simulator) `Ki_` -/
def KI_INIT : ℚ := 1/10
/-- Initial (non-simulator) `MAX_ERROR_SUM` -/
def MAX_ERROR_SUM_INIT : ℚ := 5

/-- The complete mutable state of the `LiftController` namespace (the
"private" namespace-level variables of the source), plus the `Params`
record and the ghost observation fields described in the header comment. -/
structure LCState where
  P : Params
  /-- `Kp_` -/
  Kp : ℚ
  /-- `Kd_` -/
  Kd : ℚ
  /-- `Ki_` -/
  Ki : ℚ
  /-- `angleErrorSum_` -/
  angleErrorSum : ℚ
  /-- `MAX_ERROR_SUM` (runtime-mutable via `SetGains`) -/
  maxErrorSum : ℚ
  /-- `BURNOUT_POWER_THRESH`: a `const` computed once at startup from the
  initial gains; kept as a state field that no operation ever writes. -/
  burnoutPowerThresh : ℚ
  /-- `potentialBurnoutStartTime_ms_` -/
  potentialBurnoutStartTime : ℕ
  /-- `currentAngle_rad_` -/
  currentAngle : ℚ
  /-- `desiredAngle_rad_` -/
  desiredAngle : ℚ
  /-- `currDesiredAngle_rad_` -/
  currDesiredAngle : ℚ
  /-- `prevAngleError_` -/
  prevAngleError : ℚ
  /-- `prevHalPos_` -/
  prevHalPos : ℚ
  /-- `inPosition_` -/
  inPosition : Bool
  /-- `lastInPositionTime_ms_` -/
  lastInPositionTime : ℕ
  /-- `maxSpeedRad_` -/
  maxSpeedRad : ℚ
  /-- `accelRad_` -/
  accelRad : ℚ
  /-- `radSpeed_` -/
  radSpeed : ℚ
  /-- `power_` -/
  power : ℚ
  /-- `calState_` -/
  calState : LiftCalibState
  /-- `isCalibrated_` -/
  isCalibrated : Bool
  /-- `firstCalibration_` -/
  firstCalibration : Bool
  /-- `calibrationReason_` -/
  calibrationReason : MotorCalibrationReason
  /-- `lastLiftMovedTime_ms` -/
  lastLiftMovedTime : ℕ
  /-- `lowLiftAngleDuringCalib_rad_` -/
  lowLiftAngleDuringCalib : ℚ
  /-- `liftAngleHigherThanCalibAbortAngleCount_` -/
  liftAngleAbortCount : ℕ
  /-- `enable_` -/
  enable : Bool
  /-- `enabledExternally_` -/
  enabledExternally : Bool
  /-- `enableAtTime_ms_` -/
  enableAtTime : ℕ
  /-- `bracing_` -/
  bracing : Bool
  /-- `unbracingStartTime_ms_` -/
  unbracingStartTime : ℕ
  /-- `checkForLoadWhenInPosition_` -/
  checkForLoadWhenInPosition : Bool
  /-- `checkingForLoadStartTime_` -/
  checkingForLoadStartTime : ℕ
  /-- `checkingForLoadStartAngle_` -/
  checkingForLoadStartAngle : ℚ
  /-- whether `checkForLoadCallback_` is non-null -/
  hasLoadCallback : Bool
  /-- `encoderInvalidStartTime_ms_` -/
  encoderInvalidStartTime : ℕ
  /-- ghost: messages sent to the messaging layer -/
  msgs : List LCMsg
  /-- ghost: every power handed to `HAL::MotorSetPower` via `SetPower`, in order -/
  powerTrace : List ℚ
  /-- ghost: results delivered through the `CheckForLoad` callback -/
  loadCallbackCalls : List Bool
  /-- ghost: number of executions of the `LCS_COMPLETE` branch body -/
  completeVisits : ℕ
  /-- ghost: set once the tamper-abort branch (count reaching
  `UPWARDS_LIFT_MOTION_FOR_CALIB_ABORT_CNT`) has ever been taken -/
  tamperFired : Bool
  /-- ghost: set by a tick iff the final PID clip/`SetPower` line ran -/
  reachedClip : Bool

/-- Per-tick inputs from the HAL and sibling subsystems. -/
structure TickEnv where
  /-- `HAL::GetTimeStamp()` (read once per tick) -/
  time : ℕ
  /-- `HAL::MotorGetPosition(MOTOR_LIFT)` as read by the pose filter -/
  halPos : ℚ
  /-- `HAL::MotorGetSpeed(MOTOR_LIFT)` -/
  halSpeed : ℚ
  /-- `HAL::MotorGetPosition` immediately after `HAL::MotorResetPosition` -/
  halPosPostReset : ℚ
  /-- `HAL::MotorGetCalibPower(MOTOR_LIFT)` -/
  calibPower : ℚ
  /-- `HAL::IsLiftEncoderInvalid()` -/
  encoderInvalid : Bool
  /-- `HAL::BatteryIsOnCharger()` -/
  onCharger : Bool
  /-- `IMUFilter::IsBeingHeld()` -/
  isHeld : Bool
  /-- `ProxSensors::IsAnyCliffDetected()` -/
  cliffDetected : Bool
  /-- `PickAndPlaceController::IsCarryingBlock()` -/
  carryingBlock : Bool
  /-- Modelled from the spec: the velocity sample of `vpg_.Step()` -/
  vpgVel : ℚ
  /-- Modelled from the spec: the position sample of `vpg_.Step()` -/
  vpgPos : ℚ
  deriving DecidableEq, Repr

/-- The initial state: the initializers of the namespace-level variables
(non-simulator branch); uninitialized namespace-scope scalars are
zero-initialized in C++. -/
def initState (P : Params) : LCState where
  P := P
  Kp := KP_INIT
  Kd := KD_INIT
  Ki := KI_INIT
  angleErrorSum := 0
  maxErrorSum := MAX_ERROR_SUM_INIT
  burnoutPowerThresh := KI_INIT * MAX_ERROR_SUM_INIT + KP_INIT * P.liftAngleTol
  potentialBurnoutStartTime := 0
  currentAngle := 0
  desiredAngle := 0
  currDesiredAngle := 0
  prevAngleError := 0
  prevHalPos := 0
  inPosition := true
  lastInPositionTime := 0
  maxSpeedRad := P.mpi
  accelRad := 1000
  radSpeed := 0
  power := 0
  calState := .idle
  isCalibrated := false
  firstCalibration := true
  calibrationReason := .startup
  lastLiftMovedTime := 0
  lowLiftAngleDuringCalib := 0
  liftAngleAbortCount := 0
  enable := true
  enabledExternally := false
  enableAtTime := 0
  bracing := false
  unbracingStartTime := 0
  checkForLoadWhenInPosition := false
  checkingForLoadStartTime := 0
  checkingForLoadStartAngle := 0
  hasLoadCallback := false
  encoderInvalidStartTime := 0
  msgs := []
  powerTrace := []
  loadCallbackCalls := []
  completeVisits := 0
  tamperFired := false
  reachedClip := false

namespace LiftController

/-- `ResetAnglePosition(currAngle)` -/
def resetAnglePosition (currAngle : ℚ) (s : LCState) : LCState :=
  { s with currentAngle := currAngle
           desiredAngle := currAngle
           currDesiredAngle := currAngle }

/-- `SetPower(power)`: stores `power_` and actuates the HAL motor (the
actuation is recorded in the ghost `powerTrace`). -/
def setPower (p : ℚ) (s : LCState) : LCState :=
  { s with power := p, powerTrace := s.powerTrace ++ [p] }

/-- `IsCalibrating()` -/
def isCalibrating (s : LCState) : Bool := s.calState != .idle

/-- `IsMoving()` -/
def isMoving (s : LCState) : Bool := absQ s.radSpeed > MAX_LIFT_CONSIDERED_STOPPED

/-- `EnableInternal()` -/
def enableInternal (s : LCState) : LCState :=
  if s.enable then s
  else
    resetAnglePosition s.currentAngle { s with enable := true, enableAtTime := 0 }

/-- `Enable()` -/
def enableOp (s : LCState) : LCState :=
  enableInternal { s with enabledExternally := true }

/-- `DisableInternal(autoReEnable)`; `now` is `HAL::GetTimeStamp()` at call time. -/
def disableInternal (now : ℕ) (autoReEnable : Bool) (s : LCState) : LCState :=
  let s :=
    if s.enable then
      let s := { s with enable := false, inPosition := true,
                        prevAngleError := 0, angleErrorSum := 0 }
      let s := if isCalibrating s then s else setPower 0 s
      { s with potentialBurnoutStartTime := 0, bracing := false }
    else s
  { s with enableAtTime := if autoReEnable then now + REENABLE_TIMEOUT_MS else 0 }

/-- `Disable(autoReEnable)` -/
def disableOp (now : ℕ) (autoReEnable : Bool) (s : LCState) : LCState :=
  disableInternal now autoReEnable { s with enabledExternally := false }

/-- `StartCalibrationRoutine(autoStarted, reason)` -/
def startCalibrationRoutine (autoStarted : Bool) (reason : MotorCalibrationReason)
    (s : LCState) : LCState :=
  { s with calibrationReason := reason
           calState := .lowerLift
           isCalibrated := false
           inPosition := false
           potentialBurnoutStartTime := 0
           msgs := s.msgs ++ [.motorCalibration true autoStarted]
           angleErrorSum := 0 }

/-- `ClearCalibration()` -/
def clearCalibration (s : LCState) : LCState := { s with isCalibrated := false }

/-- `OnMotorCalibrated()`: snaps the angle reference to the hard-stop angle
(the logging/DAS calls have no state effect). -/
def onMotorCalibrated (s : LCState) : LCState :=
  resetAnglePosition s.P.liftAngleLowLimit s

/-- The `LCS_COMPLETE` branch body of `CalibrationUpdate` (also the target
of the intentional fall-through from `LCS_SET_CURR_ANGLE`). -/
def calibCompleteBody (s : LCState) : LCState :=
  let s := setPower 0 s
  { s with msgs := s.msgs ++ [.motorCalibration false false]
           isCalibrated := true
           firstCalibration := false
           calState := .idle
           inPosition := true
           encoderInvalidStartTime := 0
           completeVisits := s.completeVisits + 1 }

/-- The `switch(calState_)` of `CalibrationUpdate`. -/
def calibSwitch (e : TickEnv) (s : LCState) : LCState :=
  match s.calState with
  | .idle => s
  | .lowerLift =>
      let s := setPower e.calibPower s
      { s with lastLiftMovedTime := e.time
               lowLiftAngleDuringCalib := s.currentAngle
               liftAngleAbortCount := 0
               calState := .waitForStop }
  | .waitForStop =>
      if !isMoving s then
        if e.time - s.lastLiftMovedTime > LIFT_STOP_TIME_MS then
          let s := setPower 0 s
          { s with lastLiftMovedTime := e.time, calState := .setCurrAngle }
        else s
      else { s with lastLiftMovedTime := e.time }
  | .setCurrAngle =>
      if e.time - s.lastLiftMovedTime > LIFT_RELAX_TIME_MS then
        let s := onMotorCalibrated s
        let s := { s with prevHalPos := e.halPosPostReset }
        calibCompleteBody { s with calState := .complete }
      else s
  | .complete => calibCompleteBody s

/-- The tamper ("someone is messing with the lift") check at the end of
`CalibrationUpdate`, run while `IsCalibrating()`. -/
def calibTamperCheck (s : LCState) : LCState :=
  if isCalibrating s then
    let low := if s.lowLiftAngleDuringCalib > s.currentAngle then s.currentAngle
               else s.lowLiftAngleDuringCalib
    let s := { s with lowLiftAngleDuringCalib := low }
    if s.currentAngle - low > s.P.upwardsAbortRad then
      let s := { s with liftAngleAbortCount := s.liftAngleAbortCount + 1 }
      if s.liftAngleAbortCount ≥ UPWARDS_ABORT_CNT then
        if s.firstCalibration then
          { s with calState := .lowerLift, tamperFired := true }
        else
          let s := resetAnglePosition s.currentAngle s
          { s with calState := .complete, tamperFired := true }
      else s
    else { s with liftAngleAbortCount := 0 }
  else s

/-- `CalibrationUpdate()` -/
def calibrationUpdate (e : TickEnv) (s : LCState) : LCState :=
  if s.isCalibrated then s
  else calibTamperCheck (calibSwitch e s)

/-- `PoseAndSpeedFilterUpdate()` -/
def poseAndSpeedFilterUpdate (e : TickEnv) (s : LCState) : LCState :=
  { s with currentAngle := s.currentAngle + (e.halPos - s.prevHalPos)
           radSpeed := e.halSpeed * (1 - SPEED_FILTERING_COEFF) +
                       s.radSpeed * SPEED_FILTERING_COEFF
           prevHalPos := e.halPos }

/-- `SetMaxSpeedAndAccel(max_speed, accel)` -/
def setMaxSpeedAndAccel (speed accel : ℚ) (s : LCState) : LCState :=
  let ms := absQ speed
  let ac := absQ accel
  let ms := if absQ ms < s.P.nearZeroEps then s.P.maxLiftSpeed else ms
  let ac := if absQ ac < s.P.nearZeroEps then s.P.maxLiftAccel else ac
  { s with maxSpeedRad := clipQ ms 0 s.P.maxLiftSpeed
           accelRad := clipQ ac 0 s.P.maxLiftAccel }

/-- `SetDesiredAngle_internal(...)`.  The `vpg_.StartProfile*` calls only
reprogram the (environment-modelled) profile generator and so have no
state effect here; `onCharger` is the `HAL::BatteryIsOnCharger()` read. -/
def setDesiredAngleInternal (onCharger : Bool) (angle : ℚ) (speed accel : ℚ)
    (s : LCState) : LCState :=
  let s := if onCharger && s.enabledExternally then enableInternal s else s
  if !s.enable || s.bracing then s
  else
    let s := setMaxSpeedAndAccel speed accel s
    let nd := clipQ angle s.P.minLiftAngle s.P.maxLiftAngle
    if s.inPosition && nd == s.desiredAngle &&
       absQ (s.desiredAngle - s.currentAngle) < s.P.liftAngleTol then s
    else
      let s := { s with desiredAngle := nd }
      let s := if s.inPosition then { s with angleErrorSum := 0 } else s
      { s with lastInPositionTime := 0, inPosition := false }

/-- `MotorBurnoutProtection()`: returns (protective action taken, new state). -/
def motorBurnoutProtection (e : TickEnv) (s : LCState) : Bool × LCState :=
  if absQ s.power < s.burnoutPowerThresh then
    (false, { s with potentialBurnoutStartTime := 0 })
  else if s.potentialBurnoutStartTime = 0 then
    (false, { s with potentialBurnoutStartTime := e.time })
  else if e.time - s.potentialBurnoutStartTime > BURNOUT_TIME_THRESH_MS then
    if s.inPosition || e.isHeld || e.cliffDetected then
      (true, disableInternal e.time true
               { s with msgs := s.msgs ++ [.motorAutoEnabled false] })
    else
      (true, startCalibrationRoutine true .liftMotorBurnoutProtection s)
  else (false, s)

/-- `Brace()` -/
def braceOp (s : LCState) : LCState :=
  let s := setPower BRACING_POWER s
  { s with bracing := true, unbracingStartTime := 0 }

/-- `Unbrace()` -/
def unbraceOp (now : ℕ) (s : LCState) : LCState :=
  let s := setPower 0 s
  { s with unbracingStartTime := now }

/-- `SetGains(kp, ki, kd, maxIntegralError)` -/
def setGains (kp ki kd maxIntegralError : ℚ) (s : LCState) : LCState :=
  { s with Kp := kp, Ki := ki, Kd := kd, maxErrorSum := maxIntegralError }

/-- `CheckForLoad(callback)` (non-simulator branch). -/
def checkForLoadOp (s : LCState) : LCState :=
  { s with checkForLoadWhenInPosition := true
           checkingForLoadStartTime := 0
           hasLoadCallback := true }

/-- The check-for-load block of `Update()` (after the bracing/burnout
check): returns `none` when it early-returns out of the tick, otherwise
the state with which the PID section continues. -/
def loadCheckBlock (e : TickEnv) (s : LCState) : Option LCState :=
  if s.checkingForLoadStartTime > 0 then
    if e.time > s.checkingForLoadStartTime + CHECKING_FOR_LOAD_TIMEOUT_MS then
      some { s with checkForLoadWhenInPosition := false
                    checkingForLoadStartTime := 0
                    loadCallbackCalls :=
                      if s.hasLoadCallback then s.loadCallbackCalls ++ [false]
                      else s.loadCallbackCalls }
    else if s.currentAngle < s.checkingForLoadStartAngle - s.P.loadAngleDiffThresh then
      some { s with checkForLoadWhenInPosition := false
                    checkingForLoadStartTime := 0
                    loadCallbackCalls :=
                      if s.hasLoadCallback then s.loadCallbackCalls ++ [true]
                      else s.loadCallbackCalls }
    else none
  else some s

/-- First part of the PID section of `Update()`: the VPG step (only taken
while the setpoint has not yet reached the final desired angle), the raw
PID power computation, and the D-term suppression near the travel limits.
The angle error of the tick is recoverable from the result as
`currDesiredAngle - currentAngle` (neither field is modified afterwards
during the tick). -/
def pidPowerStage (e : TickEnv) (s : LCState) : LCState :=
  let s := if s.currDesiredAngle != s.desiredAngle
           then { s with currDesiredAngle := e.vpgPos } else s
  let angleError := s.currDesiredAngle - s.currentAngle
  let powerD := s.Kd * (angleError - s.prevAngleError) * s.P.controlDt
  let s := { s with power := s.Kp * angleError + powerD + s.Ki * s.angleErrorSum }
  let inPiLowRange :=
    inRangeQ s.currentAngle s.P.liftAngleLowLimit (s.P.liftAngleLowLimit + s.P.deg5Rad) &&
    inRangeQ s.currDesiredAngle s.P.liftAngleLowLimit (s.P.liftAngleLowLimit + s.P.deg5Rad)
  let inPiHighRange :=
    inRangeQ s.currentAngle (s.P.liftAngleHighLimit - s.P.deg5Rad) s.P.liftAngleHighLimit &&
    inRangeQ s.currDesiredAngle (s.P.liftAngleHighLimit - s.P.deg5Rad) s.P.liftAngleHighLimit
  if inPiLowRange || inPiHighRange then { s with power := s.power - powerD } else s

/-- Second part of the PID section: the in-position bookkeeping — integral
decay while the held power exceeds the carrying-dependent ceiling, the
check-for-load trigger, the in-position dwell latch, and integral
accumulation while not near the final desired angle. -/
def pidInPositionStage (e : TickEnv) (s : LCState) : LCState :=
  let angleError := s.currDesiredAngle - s.currentAngle
  if absQ angleError < s.P.liftAngleTol && s.desiredAngle == s.currDesiredAngle then
    let maxPowerInPosition := if e.carryingBlock then MAX_POWER_IN_POSITION_WHILE_CARRYING
                              else MAX_POWER_IN_POSITION
    let s :=
      if absQ s.power > maxPowerInPosition then
        { s with angleErrorSum := s.angleErrorSum -
                   ANGLE_ERROR_SUM_DECAY_STEP * (if s.power > 0 then 1 else -1) }
      else if s.checkForLoadWhenInPosition && !isMoving s then
        { s with checkingForLoadStartTime := e.time
                 checkingForLoadStartAngle := s.currentAngle
                 power := 0 }
      else s
    if s.lastInPositionTime = 0 then { s with lastInPositionTime := e.time }
    else if e.time - s.lastInPositionTime > IN_POSITION_TIME_MS then
      { s with inPosition := true }
    else s
  else
    { s with lastInPositionTime := 0, angleErrorSum := s.angleErrorSum + angleError }

/-- Last part of the PID section: the integral clip, the previous-error
update, and the clamped actuation. -/
def pidFinishStage (s : LCState) : LCState :=
  let s := { s with angleErrorSum := clipQ s.angleErrorSum (-s.maxErrorSum) s.maxErrorSum
                    prevAngleError := s.currDesiredAngle - s.currentAngle
                    reachedClip := true }
  setPower (clipQ s.power (-1) 1) s

/-- The PID section of `Update()`: VPG step, PID power computation, D-term
suppression near travel limits, in-position/integral-decay logic, integral
clip and final actuation. -/
def pidSection (e : TickEnv) (s : LCState) : LCState :=
  pidFinishStage (pidInPositionStage e (pidPowerStage e s))

/-- The unbrace-settling completion check inside the
`if (bracing_ || MotorBurnoutProtection())` branch of `Update()`. -/
def unbraceSettleCheck (e : TickEnv) (s : LCState) : LCState :=
  if s.unbracingStartTime > 0 && e.time - s.unbracingStartTime > UNBRACE_PERIOD_MS then
    let s := resetAnglePosition s.currentAngle s
    { s with unbracingStartTime := 0, prevAngleError := 0,
             angleErrorSum := 0, bracing := false }
  else s

/-- The tail of `Update()` reached when the motor is (or has just become)
enabled: bracing/burnout gate, unbrace-settling completion, check-for-load
logic and the PID section.  (`MotorBurnoutProtection` is not evaluated when
`bracing_` is already true: `||` short-circuits.) -/
def updateEnabledTail (e : TickEnv) (s : LCState) : LCState :=
  if s.bracing then unbraceSettleCheck e s
  else
    match motorBurnoutProtection e s with
    | (true, s) => unbraceSettleCheck e s
    | (false, s) =>
        match loadCheckBlock e s with
        | none => setPower 0 s
        | some s => pidSection e s

/-- The opening of every `Update()` call: calibration state machine tick,
pose/speed filter, encoder-validity latch (plus the ghost `reachedClip`
reset). -/
def updateTickPre (e : TickEnv) (s : LCState) : LCState :=
  let s := { s with reachedClip := false }
  let s := calibrationUpdate e s
  let s := poseAndSpeedFilterUpdate e s
  if e.encoderInvalid && s.encoderInvalidStartTime = 0
  then { s with encoderInvalidStartTime := e.time } else s

/-- The `DISABLE_MOTORS_ON_CHARGER` gating block of `Update()`. -/
def chargerGate (e : TickEnv) (s : LCState) : LCState :=
  if s.inPosition && e.onCharger then disableInternal e.time false s
  else if s.enabledExternally && s.enableAtTime = 0 then enableInternal s
  else s

/-- The part of `Update()` that runs once the controller is known to be
calibrated: charger gating, the disabled/auto-re-enable check, and the
enabled tail. -/
def updateTickMain (e : TickEnv) (s : LCState) : LCState :=
  let s := chargerGate e s
  if !s.enable then
    if s.enableAtTime = 0 then s
    else if isMoving s then { s with enableAtTime := e.time + REENABLE_TIMEOUT_MS }
    else if s.enabledExternally && decide (e.time ≥ s.enableAtTime) then
      let s := { s with msgs := s.msgs ++ [.motorAutoEnabled true] }
      updateEnabledTail e (enableInternal s)
    else s
  else updateEnabledTail e s

/-- One full control tick: `Update()`. -/
def updateTick (e : TickEnv) (s : LCState) : LCState :=
  let s := updateTickPre e s
  if !s.isCalibrated then s
  else updateTickMain e s

/-- Public operations on the controller, each tagged with the data the
call reads from the HAL at invocation time. -/
inductive LCOp where
  | tick (e : TickEnv)
  | enable
  | disable (now : ℕ) (autoReEnable : Bool)
  | brace
  | unbrace (now : ℕ)
  | setGains (kp ki kd maxIntegralError : ℚ)
  | startCalibration (autoStarted : Bool) (reason : MotorCalibrationReason)
  | clearCalibration
  | setDesiredAngle (onCharger : Bool) (angle speed accel : ℚ)
  | checkForLoad
  deriving Repr

/-- Interpretation of one operation. -/
def applyOp (op : LCOp) (s : LCState) : LCState :=
  match op with
  | .tick e => updateTick e s
  | .enable => enableOp s
  | .disable now auto => disableOp now auto s
  | .brace => braceOp s
  | .unbrace now => unbraceOp now s
  | .setGains kp ki kd m => setGains kp ki kd m s
  | .startCalibration auto reason => startCalibrationRoutine auto reason s
  | .clearCalibration => clearCalibration s
  | .setDesiredAngle oc a sp ac => setDesiredAngleInternal oc a sp ac s
  | .checkForLoad => checkForLoadOp s

/-- Run a sequence of operations. -/
def runOps (s : LCState) : List LCOp → LCState
  | [] => s
  | op :: ops => runOps (applyOp op s) ops

/-- The states observed after each tick of a tick sequence. -/
def tickTrace (s : LCState) : List TickEnv → List LCState
  | [] => []
  | e :: es =>
      let s' := updateTick e s
      s' :: tickTrace s' es

/-- Iterated ticks. -/
def runTicks (s : LCState) : List TickEnv → LCState
  | [] => s
  | e :: es => runTicks (updateTick e s) es

end LiftController

namespace LiftController

/-! ## Concrete sample instantiations (used by witnesses and counterexamples)

The numeric values of the header-provided constants are not in the
repository snapshot; the samples below pick representative rational values
(a tolerance of 0.01 rad, a joint range of [0, 2] rad with the low hard
stop at the range bottom, a 5 ms control period, ...). -/

/-- A concrete parameter valuation. -/
def sampleParams : Params where
  liftAngleTol := 1/100
  minLiftAngle := 0
  maxLiftAngle := 2
  liftAngleLowLimit := 0
  liftAngleHighLimit := 2
  deg5Rad := 1/10
  upwardsAbortRad := 1/5
  loadAngleDiffThresh := 1/50
  controlDt := 1/200
  maxLiftSpeed := 10
  maxLiftAccel := 20
  nearZeroEps := 1/1000000
  mpi := 22/7

/-- A calibrated, enabled, externally-enabled controller at rest at the
low hard stop (the state reached after a successful startup calibration
followed by `Enable()`). -/
def sampleCalibrated : LCState :=
  { initState sampleParams with
      isCalibrated := true
      firstCalibration := false
      enabledExternally := true }

end LiftController

namespace LiftController

/-! ## C10: the burnout power threshold is fixed at startup -/

/-- C10.  The burnout power threshold is computed once at startup from the
initial gains, `Ki_ * MAX_ERROR_SUM + Kp_ * LIFT_ANGLE_TOL`
(`= 1/10 * 5 + 3 * LIFT_ANGLE_TOL` in the non-simulator build), and no
sequence of `SetGains` calls ever changes the threshold field that
`MotorBurnoutProtection` compares against, even though each call does
update the gains and the integral clamp ceiling. -/
theorem setGains_never_changes_burnout_threshold (P : Params) (s : LCState)
    (gs : List (ℚ × ℚ × ℚ × ℚ)) :
    (initState P).burnoutPowerThresh
        = KI_INIT * MAX_ERROR_SUM_INIT + KP_INIT * P.liftAngleTol ∧
    (runOps s (gs.map fun g => LCOp.setGains g.1 g.2.1 g.2.2.1 g.2.2.2)).burnoutPowerThresh
        = s.burnoutPowerThresh ∧
    (∀ kp ki kd m, (setGains kp ki kd m s).Kp = kp ∧ (setGains kp ki kd m s).Ki = ki ∧
      (setGains kp ki kd m s).Kd = kd ∧ (setGains kp ki kd m s).maxErrorSum = m ∧
      (setGains kp ki kd m s).burnoutPowerThresh = s.burnoutPowerThresh) := by
  refine ⟨rfl, ?_, fun kp ki kd m => ⟨rfl, rfl, rfl, rfl, rfl⟩⟩
  induction gs generalizing s with
  | nil => rfl
  | cons g gs ih => simpa [runOps, applyOp, setGains] using ih _

/-! ## C9: disabling during calibration leaves motor power untouched -/

/-- C9.  When `DisableInternal` runs on an enabled controller during an
active calibration (`IsCalibrating()` true), the applied motor power is
left unchanged and nothing is sent to the HAL actuator; when no
calibration is active, zero power is commanded.  In both cases the other
disable effects happen: the enable flag is cleared, the PID integral sum
and previous error are reset, and the joint is marked in position. -/
theorem disableInternal_keeps_power_while_calibrating (now : ℕ) (b : Bool)
    (s : LCState) (hen : s.enable = true) :
    (isCalibrating s = true →
      (disableInternal now b s).power = s.power ∧
      (disableInternal now b s).powerTrace = s.powerTrace) ∧
    (isCalibrating s = false →
      (disableInternal now b s).power = 0 ∧
      (disableInternal now b s).powerTrace = s.powerTrace ++ [0]) ∧
    (disableInternal now b s).enable = false ∧
    (disableInternal now b s).prevAngleError = 0 ∧
    (disableInternal now b s).angleErrorSum = 0 ∧
    (disableInternal now b s).inPosition = true := by
  unfold disableInternal setPower
  by_cases hc : isCalibrating s = true <;>
    simp_all [isCalibrating]

/-- Witness for C9: an enabled controller mid-calibration (state
`LCS_WAIT_FOR_STOP`, power 1/2) keeps its power on `DisableInternal`. -/
theorem disableInternal_keeps_power_while_calibrating_witness :
    (let s : LCState := { sampleCalibrated with
                            isCalibrated := false
                            calState := .waitForStop
                            power := 1/2 }
     s.enable = true ∧
     (isCalibrating s = true →
        (disableInternal 100 false s).power = s.power ∧
        (disableInternal 100 false s).powerTrace = s.powerTrace) ∧
     (isCalibrating s = false →
        (disableInternal 100 false s).power = 0 ∧
        (disableInternal 100 false s).powerTrace = s.powerTrace ++ [0]) ∧
     (disableInternal 100 false s).enable = false ∧
     (disableInternal 100 false s).prevAngleError = 0 ∧
     (disableInternal 100 false s).angleErrorSum = 0 ∧
     (disableInternal 100 false s).inPosition = true) :=
  ⟨rfl, disableInternal_keeps_power_while_calibrating 100 false _ rfl⟩

/-! ## C8: desired-angle clamping -/

/-- Counterexample to C8 as stated.  The claim asserts the clamping of the
stored desired angle holds "for every commanded angle, regardless of
controller state".  On a disabled controller (here: the initial state with
`enable_` cleared), `SetDesiredAngle_internal` returns before storing
anything, so commanding the out-of-range angle 5 leaves the stored desired
angle at 0 instead of the clamped boundary 2. -/
theorem setDesiredAngle_ignored_when_disabled :
    (setDesiredAngleInternal false 5 1 1
        { initState sampleParams with enable := false }).desiredAngle = 0 ∧
    clipQ 5 sampleParams.minLiftAngle sampleParams.maxLiftAngle = 2 := by
  constructor <;> rfl

/-- C8 (amended).  Whenever the `SetDesiredAngle` call passes the
enable/bracing guard — the controller is enabled, or it is on the charger
with the externally-enabled flag set so the call re-enables it first — and
is not bracing, the stored desired angle after the call equals the
commanded angle clamped to `[MIN_LIFT_ANGLE, MAX_LIFT_ANGLE]` (for
in-range angles this is the commanded angle itself).  A disabled or
bracing controller ignores the command entirely. -/
theorem setDesiredAngle_clamps (oc : Bool) (angle speed accel : ℚ) (s : LCState)
    (hbr : s.bracing = false)
    (hen : s.enable = true ∨ (oc = true ∧ s.enabledExternally = true)) :
    (setDesiredAngleInternal oc angle speed accel s).desiredAngle
      = clipQ angle s.P.minLiftAngle s.P.maxLiftAngle := by
  unfold setDesiredAngleInternal
  rcases hen with hen | ⟨hoc, hext⟩
  · have h1 : (if oc && s.enabledExternally then enableInternal s else s) = s ∨
        (if oc && s.enabledExternally then enableInternal s else s) = enableInternal s := by
      split <;> simp
    rcases h1 with h1 | h1 <;> rw [h1] <;>
      simp [enableInternal, hen, hbr, setMaxSpeedAndAccel, resetAnglePosition] <;>
      split <;> simp_all <;> split <;> simp_all
  · subst hoc
    simp only [hext, Bool.and_self, if_true, true_and]
    by_cases he : s.enable = true <;>
      simp [enableInternal, he, hbr, setMaxSpeedAndAccel, resetAnglePosition] <;>
      split <;> simp_all <;> split <;> simp_all

/-- Witness for the amended C8: commanding angle 5 on the enabled sample
state stores the clamped boundary 2. -/
theorem setDesiredAngle_clamps_witness :
    sampleCalibrated.bracing = false ∧
    (sampleCalibrated.enable = true ∨
      (false = true ∧ sampleCalibrated.enabledExternally = true)) ∧
    (setDesiredAngleInternal false 5 1 1 sampleCalibrated).desiredAngle
      = clipQ 5 sampleCalibrated.P.minLiftAngle sampleCalibrated.P.maxLiftAngle :=
  ⟨rfl, Or.inl rfl, setDesiredAngle_clamps false 5 1 1 sampleCalibrated rfl (Or.inl rfl)⟩

end LiftController

namespace LiftController

/-! ## C4: every power handed to the HAL actuator is bounded by 1 -/

/-- Trace extension soundness: every actuated power recorded by the second
state is either one the first state had already recorded or is bounded
by 1 in magnitude. -/
def PowOk (s t : LCState) : Prop :=
  ∀ p ∈ t.powerTrace, p ∈ s.powerTrace ∨ |p| ≤ 1

theorem powOk_of_eq {s t : LCState} (h : t.powerTrace = s.powerTrace) : PowOk s t :=
  fun p hp => Or.inl (h ▸ hp)

theorem powOk_rfl (s : LCState) : PowOk s s := powOk_of_eq rfl

theorem powOk_trans {s t u : LCState} (h1 : PowOk s t) (h2 : PowOk t u) : PowOk s u :=
  fun p hp => (h2 p hp).elim (fun h => h1 p h) Or.inr

theorem powOk_append_single {s t : LCState} {x : ℚ} (hx : |x| ≤ 1)
    (h : t.powerTrace = s.powerTrace ++ [x]) : PowOk s t := by
  intro p hp
  rw [h, List.mem_append, List.mem_singleton] at hp
  rcases hp with hp | rfl
  · exact Or.inl hp
  · exact Or.inr hx

theorem abs_clipQ_le_one (x : ℚ) : |clipQ x (-1) 1| ≤ 1 := by
  rw [clipQ_eq, abs_le]
  constructor
  · exact le_min (le_max_right x (-1)) (by norm_num)
  · exact min_le_right _ 1

theorem powOk_calibCompleteBody (s : LCState) : PowOk s (calibCompleteBody s) :=
  powOk_append_single (by norm_num) rfl

theorem powOk_calibSwitch (e : TickEnv) (s : LCState) (hcp : |e.calibPower| ≤ 1) :
    PowOk s (calibSwitch e s) := by
  unfold calibSwitch
  split
  · exact powOk_rfl s
  · exact powOk_append_single hcp rfl
  · split
    · split
      · exact powOk_append_single (by norm_num) rfl
      · exact powOk_of_eq rfl
    · exact powOk_of_eq rfl
  · split
    · exact powOk_trans (powOk_of_eq rfl) (powOk_calibCompleteBody _)
    · exact powOk_rfl s
  · exact powOk_calibCompleteBody s

theorem calibTamperCheck_trace (s : LCState) :
    (calibTamperCheck s).powerTrace = s.powerTrace := by
  simp only [calibTamperCheck, resetAnglePosition]
  repeat' split
  all_goals rfl

theorem powOk_calibrationUpdate (e : TickEnv) (s : LCState) (hcp : |e.calibPower| ≤ 1) :
    PowOk s (calibrationUpdate e s) := by
  unfold calibrationUpdate
  split
  · exact powOk_rfl s
  · exact powOk_trans (powOk_calibSwitch e s hcp) (powOk_of_eq (calibTamperCheck_trace _))

theorem powOk_disableInternal (now : ℕ) (b : Bool) (s : LCState) :
    PowOk s (disableInternal now b s) := by
  simp only [disableInternal, setPower]
  repeat' split
  all_goals
    first
      | exact powOk_of_eq rfl
      | exact powOk_append_single (by norm_num) rfl

theorem powOk_motorBurnoutProtection (e : TickEnv) (s : LCState) :
    PowOk s (motorBurnoutProtection e s).2 := by
  simp only [motorBurnoutProtection]
  repeat' split
  all_goals
    first
      | exact powOk_of_eq rfl
      | exact powOk_trans (powOk_of_eq (s := s) rfl) (powOk_disableInternal _ _ _)

theorem loadCheckBlock_some_trace {e : TickEnv} {s t : LCState}
    (h : loadCheckBlock e s = some t) : t.powerTrace = s.powerTrace := by
  unfold loadCheckBlock at h
  split at h
  · split at h
    · cases h; rfl
    · split at h
      · cases h; rfl
      · cases h
  · cases h; rfl

theorem pidPowerStage_trace (e : TickEnv) (s : LCState) :
    (pidPowerStage e s).powerTrace = s.powerTrace := by
  simp only [pidPowerStage]
  repeat' split
  all_goals rfl

theorem pidInPositionStage_trace (e : TickEnv) (s : LCState) :
    (pidInPositionStage e s).powerTrace = s.powerTrace := by
  simp only [pidInPositionStage]
  repeat' split
  all_goals rfl

theorem powOk_pidFinishStage (s : LCState) : PowOk s (pidFinishStage s) :=
  powOk_append_single (abs_clipQ_le_one _) rfl

theorem powOk_pidSection (e : TickEnv) (s : LCState) : PowOk s (pidSection e s) := by
  unfold pidSection
  exact powOk_trans
    (powOk_of_eq (by rw [pidInPositionStage_trace, pidPowerStage_trace]))
    (powOk_pidFinishStage _)

theorem powOk_unbraceSettleCheck (e : TickEnv) (s : LCState) :
    PowOk s (unbraceSettleCheck e s) := by
  unfold unbraceSettleCheck resetAnglePosition
  split <;> exact powOk_of_eq rfl

theorem powOk_updateEnabledTail (e : TickEnv) (s : LCState) :
    PowOk s (updateEnabledTail e s) := by
  unfold updateEnabledTail
  split
  · exact powOk_unbraceSettleCheck e s
  · split
    next s₁ heq =>
      exact powOk_trans
        (by rw [show s₁ = (motorBurnoutProtection e s).2 by rw [heq]]
            exact powOk_motorBurnoutProtection e s)
        (powOk_unbraceSettleCheck e s₁)
    next s₁ heq =>
      have h1 : PowOk s s₁ := by
        rw [show s₁ = (motorBurnoutProtection e s).2 by rw [heq]]
        exact powOk_motorBurnoutProtection e s
      split
      · exact powOk_trans h1 (powOk_append_single (by norm_num) rfl)
      next t hlc =>
        exact powOk_trans (powOk_trans h1 (powOk_of_eq (loadCheckBlock_some_trace hlc)))
          (powOk_pidSection e t)

theorem enableInternal_trace (s : LCState) :
    (enableInternal s).powerTrace = s.powerTrace := by
  simp only [enableInternal, resetAnglePosition]
  split <;> rfl

theorem powOk_enableInternal (s : LCState) : PowOk s (enableInternal s) :=
  powOk_of_eq (enableInternal_trace s)

theorem setMaxSpeedAndAccel_trace (sp ac : ℚ) (s : LCState) :
    (setMaxSpeedAndAccel sp ac s).powerTrace = s.powerTrace := by
  simp only [setMaxSpeedAndAccel]
  repeat' split
  all_goals rfl

theorem setDesiredAngleInternal_trace (oc : Bool) (a sp ac : ℚ) (s : LCState) :
    (setDesiredAngleInternal oc a sp ac s).powerTrace = s.powerTrace := by
  simp only [setDesiredAngleInternal]
  repeat' split
  all_goals
    first
      | rfl
      | exact enableInternal_trace s
      | simp [setMaxSpeedAndAccel_trace, enableInternal_trace]

theorem powOk_updateTickPre (e : TickEnv) (s : LCState) (hcp : |e.calibPower| ≤ 1) :
    PowOk s (updateTickPre e s) := by
  have h0 : PowOk s (calibrationUpdate e { s with reachedClip := false }) :=
    powOk_trans (t := { s with reachedClip := false }) (powOk_of_eq rfl)
      (powOk_calibrationUpdate e _ hcp)
  have h1 : PowOk s (poseAndSpeedFilterUpdate e
      (calibrationUpdate e { s with reachedClip := false })) :=
    powOk_trans (t := calibrationUpdate e { s with reachedClip := false }) h0
      (powOk_of_eq rfl)
  simp only [updateTickPre]
  split
  · exact powOk_trans h1 (powOk_of_eq rfl)
  · exact h1

theorem powOk_chargerGate (e : TickEnv) (s : LCState) : PowOk s (chargerGate e s) := by
  simp only [chargerGate]
  split
  · exact powOk_disableInternal _ _ _
  · split
    · exact powOk_enableInternal s
    · exact powOk_rfl s

theorem powOk_updateTickMain (e : TickEnv) (s : LCState) : PowOk s (updateTickMain e s) := by
  simp only [updateTickMain]
  have hgate := powOk_chargerGate e s
  split
  · split
    · exact hgate
    · split
      · exact powOk_trans hgate (powOk_of_eq rfl)
      · split
        · have hmsgs : PowOk s { chargerGate e s with
              msgs := (chargerGate e s).msgs ++ [LCMsg.motorAutoEnabled true] } :=
            powOk_trans (t := chargerGate e s) hgate (powOk_of_eq rfl)
          exact powOk_trans (powOk_trans hmsgs (powOk_enableInternal _))
            (powOk_updateEnabledTail e _)
        · exact hgate
  · exact powOk_trans hgate (powOk_updateEnabledTail e _)

theorem powOk_updateTick (e : TickEnv) (s : LCState) (hcp : |e.calibPower| ≤ 1) :
    PowOk s (updateTick e s) := by
  simp only [updateTick]
  have hpre := powOk_updateTickPre e s hcp
  split
  · exact hpre
  · exact powOk_trans hpre (powOk_updateTickMain e _)

/-- The HAL-contract side condition an operation needs for C4: calibration
power read from `HAL::MotorGetCalibPower` is itself a legal duty cycle.
Modelled from the spec: the HAL implementation is not part of the snapshot;
the spec's power-bound property presumes calibration power is a valid
`[-1, 1]` command. -/
def opCalibPowerOk : LCOp → Prop
  | .tick e => |e.calibPower| ≤ 1
  | _ => True

theorem powOk_applyOp (op : LCOp) (s : LCState) (hop : opCalibPowerOk op) :
    PowOk s (applyOp op s) := by
  cases op with
  | tick e => exact powOk_updateTick e s hop
  | enable =>
      exact powOk_trans (powOk_of_eq (s := s) rfl) (powOk_enableInternal _)
  | disable now b =>
      exact powOk_trans (powOk_of_eq (s := s) rfl) (powOk_disableInternal now b _)
  | brace =>
      refine powOk_append_single ?_ rfl
      rw [abs_le]
      constructor <;> norm_num [BRACING_POWER]
  | unbrace now => exact powOk_append_single (by norm_num) rfl
  | setGains kp ki kd m => exact powOk_of_eq rfl
  | startCalibration a r => exact powOk_of_eq rfl
  | clearCalibration => exact powOk_of_eq rfl
  | setDesiredAngle oc a sp ac =>
      exact powOk_of_eq (setDesiredAngleInternal_trace oc a sp ac s)
  | checkForLoad => exact powOk_of_eq rfl

theorem powOk_runOps (s : LCState) (ops : List LCOp)
    (hop : ∀ op ∈ ops, opCalibPowerOk op) : PowOk s (runOps s ops) := by
  induction ops generalizing s with
  | nil => exact powOk_rfl s
  | cons op ops ih =>
      exact powOk_trans (powOk_applyOp op s (hop op (by simp)))
        (ih _ fun o ho => hop o (by simp [ho]))

/-- C4.  In every reachable controller state (any operation sequence from
the initial state) and on every tick, each power value handed to the HAL
actuator through `SetPower` — the clamped PID output, the calibration
power, the bracing power and all the zero-power paths — satisfies
`|power| <= 1`, given the HAL contract that the calibration power read
from `HAL::MotorGetCalibPower` is itself bounded by 1. -/
theorem halPowers_bounded (P : Params) (ops : List LCOp)
    (hop : ∀ op ∈ ops, opCalibPowerOk op) :
    ∀ p ∈ (runOps (initState P) ops).powerTrace, |p| ≤ 1 := by
  intro p hp
  rcases powOk_runOps (initState P) ops hop p hp with h | h
  · simp [initState] at h
  · exact h

end LiftController

namespace LiftController

/-! ## Helper lemmas about the tick pipeline -/

theorem calibrationUpdate_of_calibrated (e : TickEnv) (s : LCState)
    (h : s.isCalibrated = true) : calibrationUpdate e s = s := by
  simp [calibrationUpdate, h]

theorem enableInternal_of_enabled {s : LCState} (h : s.enable = true) :
    enableInternal s = s := by
  simp [enableInternal, h]

theorem chargerGate_of_enabled {e : TickEnv} {s : LCState}
    (hchg : e.onCharger = false) (hen : s.enable = true) : chargerGate e s = s := by
  simp [chargerGate, hchg, enableInternal_of_enabled hen]

/-- Field bookkeeping for the opening of a tick on a calibrated
controller: the calibration state machine is a no-op, and the pose filter
and encoder latch leave all supervisor/PID bookkeeping fields unchanged. -/
theorem updateTickPre_proj (e : TickEnv) (s : LCState) (hcal : s.isCalibrated = true) :
    (updateTickPre e s).isCalibrated = true ∧
    (updateTickPre e s).enable = s.enable ∧
    (updateTickPre e s).calState = s.calState ∧
    (updateTickPre e s).power = s.power ∧
    (updateTickPre e s).potentialBurnoutStartTime = s.potentialBurnoutStartTime ∧
    (updateTickPre e s).inPosition = s.inPosition ∧
    (updateTickPre e s).bracing = s.bracing ∧
    (updateTickPre e s).unbracingStartTime = s.unbracingStartTime ∧
    (updateTickPre e s).burnoutPowerThresh = s.burnoutPowerThresh ∧
    (updateTickPre e s).msgs = s.msgs ∧
    (updateTickPre e s).enabledExternally = s.enabledExternally ∧
    (updateTickPre e s).enableAtTime = s.enableAtTime ∧
    (updateTickPre e s).checkingForLoadStartTime = s.checkingForLoadStartTime ∧
    (updateTickPre e s).checkForLoadWhenInPosition = s.checkForLoadWhenInPosition ∧
    (updateTickPre e s).angleErrorSum = s.angleErrorSum ∧
    (updateTickPre e s).maxErrorSum = s.maxErrorSum ∧
    (updateTickPre e s).desiredAngle = s.desiredAngle ∧
    (updateTickPre e s).currDesiredAngle = s.currDesiredAngle ∧
    (updateTickPre e s).lastInPositionTime = s.lastInPositionTime ∧
    (updateTickPre e s).reachedClip = false ∧
    (updateTickPre e s).radSpeed
      = e.halSpeed * (1 - SPEED_FILTERING_COEFF) + s.radSpeed * SPEED_FILTERING_COEFF ∧
    (updateTickPre e s).currentAngle = s.currentAngle + (e.halPos - s.prevHalPos) := by
  have hcu : calibrationUpdate e { s with reachedClip := false }
      = { s with reachedClip := false } :=
    calibrationUpdate_of_calibrated e _ hcal
  simp only [updateTickPre, hcu, poseAndSpeedFilterUpdate]
  split <;> simp [hcal]

/-- On a calibrated, enabled controller off the charger, a tick is the
tick opening followed by the enabled tail. -/
theorem updateTick_enabled_eq (e : TickEnv) (s : LCState)
    (hcal : s.isCalibrated = true) (hen : s.enable = true) (hchg : e.onCharger = false) :
    updateTick e s = updateEnabledTail e (updateTickPre e s) := by
  obtain ⟨h1, h2, -⟩ := updateTickPre_proj e s hcal
  have h2' : (updateTickPre e s).enable = true := by rw [h2, hen]
  simp [updateTick, updateTickMain, h1, chargerGate_of_enabled hchg h2', h2']

end LiftController

namespace LiftController

theorem unbraceSettleCheck_of_zero (e : TickEnv) {s : LCState}
    (h : s.unbracingStartTime = 0) : unbraceSettleCheck e s = s := by
  simp [unbraceSettleCheck, h]

/-! ## C2: burnout protection decision -/

/-- C2.  Burnout-timer mechanics and the deciding tick.  While the applied
power magnitude stays at or above `BURNOUT_POWER_THRESH`, the timer keeps
the timestamp of the first over-threshold tick (conjuncts on
`motorBurnoutProtection`: below threshold it resets the timer to zero and
takes no action; at/above threshold it arms the timer on the first tick
and waits until more than `BURNOUT_TIME_THRESH_MS` have elapsed).  On the
deciding tick of an enabled, calibrated, non-bracing controller (off the
charger), if the joint is in position or the robot is held in a hand or a
cliff is detected, the tick disables the motor with an auto-re-enable
deadline `REENABLE_TIMEOUT_MS` in the future and reports it (motor
auto-enabled message with flag false); otherwise it starts a new
calibration with reason `LiftMotorBurnoutProtection`.  Either way the PID
section is skipped that tick (the ghost `reachedClip` stays false). -/
theorem motorBurnoutProtection_decision (e : TickEnv) (s : LCState)
    (hcal : s.isCalibrated = true)
    (hidle : s.calState = LiftCalibState.idle)
    (hen : s.enable = true)
    (hbr : s.bracing = false)
    (hchg : e.onCharger = false)
    (hub : s.unbracingStartTime = 0)
    (hpw : s.burnoutPowerThresh ≤ |s.power|)
    (ht0 : s.potentialBurnoutStartTime ≠ 0)
    (hdt : BURNOUT_TIME_THRESH_MS < e.time - s.potentialBurnoutStartTime) :
    ((s.inPosition || e.isHeld || e.cliffDetected) = true →
        (updateTick e s).enable = false ∧
        (updateTick e s).enableAtTime = e.time + REENABLE_TIMEOUT_MS ∧
        (updateTick e s).msgs = s.msgs ++ [LCMsg.motorAutoEnabled false] ∧
        (updateTick e s).power = 0 ∧
        (updateTick e s).reachedClip = false) ∧
    ((s.inPosition || e.isHeld || e.cliffDetected) = false →
        (updateTick e s).calState = LiftCalibState.lowerLift ∧
        (updateTick e s).isCalibrated = false ∧
        (updateTick e s).calibrationReason = MotorCalibrationReason.liftMotorBurnoutProtection ∧
        (updateTick e s).msgs = s.msgs ++ [LCMsg.motorCalibration true true] ∧
        (updateTick e s).power = s.power ∧
        (updateTick e s).angleErrorSum = 0 ∧
        (updateTick e s).reachedClip = false) ∧
    (∀ t : LCState, |t.power| < t.burnoutPowerThresh →
        motorBurnoutProtection e t = (false, { t with potentialBurnoutStartTime := 0 })) ∧
    (∀ t : LCState, t.burnoutPowerThresh ≤ |t.power| → t.potentialBurnoutStartTime = 0 →
        motorBurnoutProtection e t = (false, { t with potentialBurnoutStartTime := e.time })) ∧
    (∀ t : LCState, t.burnoutPowerThresh ≤ |t.power| → t.potentialBurnoutStartTime ≠ 0 →
        e.time - t.potentialBurnoutStartTime ≤ BURNOUT_TIME_THRESH_MS →
        motorBurnoutProtection e t = (false, t)) := by
  obtain ⟨q1, q2, q3, q4, q5, q6, q7, q8, q9, q10, q11, q12, q13, q14, q15, q16,
    q17, q18, q19, q20, q21, q22⟩ := updateTickPre_proj e s hcal
  rw [updateTick_enabled_eq e s hcal hen hchg]
  have htbr : (updateTickPre e s).bracing = false := by rw [q7, hbr]
  have c1 : ¬ (absQ (updateTickPre e s).power < (updateTickPre e s).burnoutPowerThresh) := by
    rw [absQ_eq_abs, q4, q9]; exact not_lt.mpr hpw
  have c2 : ¬ ((updateTickPre e s).potentialBurnoutStartTime = 0) := by
    rw [q5]; exact ht0
  have c3 : e.time - (updateTickPre e s).potentialBurnoutStartTime > BURNOUT_TIME_THRESH_MS := by
    rw [q5]; exact hdt
  refine ⟨?_, ?_, ?_, ?_, ?_⟩
  · intro hcond
    have hcond' : ((updateTickPre e s).inPosition || e.isHeld || e.cliffDetected) = true := by
      rw [q6]; exact hcond
    have hmbp : motorBurnoutProtection e (updateTickPre e s)
        = (true, disableInternal e.time true
            { updateTickPre e s with
                msgs := (updateTickPre e s).msgs ++ [LCMsg.motorAutoEnabled false] }) := by
      simp only [motorBurnoutProtection, if_neg c1, if_neg c2, if_pos c3, hcond', if_true]
    have hend : (updateTickPre e s).enable = true := by rw [q2, hen]
    simp only [updateEnabledTail, htbr, Bool.false_eq_true, if_false, hmbp]
    simp [disableInternal, setPower, isCalibrating, unbraceSettleCheck,
      q3, hidle, hend, q8, hub, q10, q20]
  · intro hcond
    have hcond' : ((updateTickPre e s).inPosition || e.isHeld || e.cliffDetected) = false := by
      rw [q6]; exact hcond
    have hmbp : motorBurnoutProtection e (updateTickPre e s)
        = (true, startCalibrationRoutine true MotorCalibrationReason.liftMotorBurnoutProtection
            (updateTickPre e s)) := by
      simp only [motorBurnoutProtection, if_neg c1, if_neg c2, if_pos c3, hcond',
        Bool.false_eq_true, if_false]
    simp only [updateEnabledTail, htbr, Bool.false_eq_true, if_false, hmbp]
    simp [startCalibrationRoutine, unbraceSettleCheck, q4, q8, hub, q10, q20]
  · intro t ht
    simp [motorBurnoutProtection, absQ_eq_abs, ht]
  · intro t ht ht0'
    simp [motorBurnoutProtection, absQ_eq_abs, not_lt.mpr ht, ht0']
  · intro t ht ht0' hle
    simp [motorBurnoutProtection, absQ_eq_abs, not_lt.mpr ht, ht0', not_lt.mpr hle]

end LiftController

namespace LiftController

/-- A tick environment with the joint at rest, off the charger, all
sensors quiet. -/
def quietEnv (t : ℕ) : TickEnv where
  time := t
  halPos := 0
  halSpeed := 0
  halPosPostReset := 0
  calibPower := -(1/2)
  encoderInvalid := false
  onCharger := false
  isHeld := false
  cliffDetected := false
  carryingBlock := false
  vpgVel := 0
  vpgPos := 0

theorem loadCheckBlock_of_zero (e : TickEnv) {s : LCState}
    (h : s.checkingForLoadStartTime = 0) : loadCheckBlock e s = some s := by
  simp [loadCheckBlock, h]

theorem enableInternal_of_disabled {s : LCState} (h : s.enable = false) :
    enableInternal s = resetAnglePosition s.currentAngle
      { s with enable := true, enableAtTime := 0 } := by
  unfold enableInternal
  rw [h]
  simp

/-- When nothing protective fires (not bracing, power below the burnout
threshold, no load check pending), the enabled tail of a tick is exactly
the PID section, after the burnout timer reset. -/
theorem updateEnabledTail_of_quiet (e : TickEnv) (t : LCState)
    (hbr : t.bracing = false)
    (hpw : |t.power| < t.burnoutPowerThresh)
    (hclt : t.checkingForLoadStartTime = 0) :
    updateEnabledTail e t = pidSection e { t with potentialBurnoutStartTime := 0 } := by
  have hmbp : motorBurnoutProtection e t = (false, { t with potentialBurnoutStartTime := 0 }) := by
    simp [motorBurnoutProtection, absQ_eq_abs, hpw]
  simp only [updateEnabledTail, hbr, Bool.false_eq_true, if_false, hmbp]
  rw [loadCheckBlock_of_zero]
  exact hclt

/-- Once disabled with a pending deadline, a tick on a calibrated
controller (off the charger) reduces to the auto-re-enable check. -/
theorem updateTick_disabled_eq (e : TickEnv) (s : LCState)
    (hcal : s.isCalibrated = true) (hen : s.enable = false)
    (hchg : e.onCharger = false) (hat0 : s.enableAtTime ≠ 0) :
    updateTick e s =
      (if isMoving (updateTickPre e s) then
        { updateTickPre e s with enableAtTime := e.time + REENABLE_TIMEOUT_MS }
      else if s.enabledExternally && decide (s.enableAtTime ≤ e.time) then
        updateEnabledTail e (enableInternal
          { updateTickPre e s with
              msgs := (updateTickPre e s).msgs ++ [LCMsg.motorAutoEnabled true] })
      else updateTickPre e s) := by
  obtain ⟨q1, q2, q3, q4, q5, q6, q7, q8, q9, q10, q11, q12, -⟩ :=
    updateTickPre_proj e s hcal
  have hcg : chargerGate e (updateTickPre e s) = updateTickPre e s := by
    simp [chargerGate, hchg, q12, hat0]
  have hne : (updateTickPre e s).enable = false := by rw [q2, hen]
  simp only [updateTick, updateTickMain, q1, hcg, hne, Bool.not_false, if_true,
    Bool.not_true, Bool.false_eq_true, if_false, q11, q12]
  have : (s.enableAtTime = 0) = False := by simp [hat0]
  simp [this, ge_iff_le]

end LiftController

namespace LiftController

/-- Fields of the controller state that the first PID stage never writes. -/
theorem pidPowerStage_super (e : TickEnv) (t : LCState) :
    (pidPowerStage e t).enable = t.enable ∧
    (pidPowerStage e t).enableAtTime = t.enableAtTime ∧
    (pidPowerStage e t).msgs = t.msgs ∧
    (pidPowerStage e t).enabledExternally = t.enabledExternally ∧
    (pidPowerStage e t).isCalibrated = t.isCalibrated ∧
    (pidPowerStage e t).calState = t.calState ∧
    (pidPowerStage e t).bracing = t.bracing ∧
    (pidPowerStage e t).desiredAngle = t.desiredAngle ∧
    (pidPowerStage e t).currentAngle = t.currentAngle ∧
    (pidPowerStage e t).burnoutPowerThresh = t.burnoutPowerThresh ∧
    (pidPowerStage e t).maxErrorSum = t.maxErrorSum ∧
    (pidPowerStage e t).radSpeed = t.radSpeed ∧
    (pidPowerStage e t).checkForLoadWhenInPosition = t.checkForLoadWhenInPosition ∧
    (pidPowerStage e t).unbracingStartTime = t.unbracingStartTime ∧
    (pidPowerStage e t).inPosition = t.inPosition ∧
    (pidPowerStage e t).lastInPositionTime = t.lastInPositionTime := by
  simp only [pidPowerStage]
  repeat' split
  all_goals simp

/-- Fields that the in-position PID stage never writes. -/
theorem pidInPositionStage_super (e : TickEnv) (t : LCState) :
    (pidInPositionStage e t).enable = t.enable ∧
    (pidInPositionStage e t).enableAtTime = t.enableAtTime ∧
    (pidInPositionStage e t).msgs = t.msgs ∧
    (pidInPositionStage e t).enabledExternally = t.enabledExternally ∧
    (pidInPositionStage e t).isCalibrated = t.isCalibrated ∧
    (pidInPositionStage e t).calState = t.calState ∧
    (pidInPositionStage e t).bracing = t.bracing ∧
    (pidInPositionStage e t).desiredAngle = t.desiredAngle ∧
    (pidInPositionStage e t).currentAngle = t.currentAngle ∧
    (pidInPositionStage e t).burnoutPowerThresh = t.burnoutPowerThresh ∧
    (pidInPositionStage e t).maxErrorSum = t.maxErrorSum ∧
    (pidInPositionStage e t).radSpeed = t.radSpeed ∧
    (pidInPositionStage e t).checkForLoadWhenInPosition = t.checkForLoadWhenInPosition ∧
    (pidInPositionStage e t).unbracingStartTime = t.unbracingStartTime ∧
    (pidInPositionStage e t).currDesiredAngle = t.currDesiredAngle := by
  simp only [pidInPositionStage]
  repeat' split
  all_goals simp

/-- Fields that the final PID stage never writes. -/
theorem pidFinishStage_super (t : LCState) :
    (pidFinishStage t).enable = t.enable ∧
    (pidFinishStage t).enableAtTime = t.enableAtTime ∧
    (pidFinishStage t).msgs = t.msgs ∧
    (pidFinishStage t).enabledExternally = t.enabledExternally ∧
    (pidFinishStage t).isCalibrated = t.isCalibrated ∧
    (pidFinishStage t).calState = t.calState ∧
    (pidFinishStage t).bracing = t.bracing ∧
    (pidFinishStage t).desiredAngle = t.desiredAngle ∧
    (pidFinishStage t).currentAngle = t.currentAngle ∧
    (pidFinishStage t).burnoutPowerThresh = t.burnoutPowerThresh ∧
    (pidFinishStage t).maxErrorSum = t.maxErrorSum ∧
    (pidFinishStage t).radSpeed = t.radSpeed ∧
    (pidFinishStage t).checkForLoadWhenInPosition = t.checkForLoadWhenInPosition ∧
    (pidFinishStage t).unbracingStartTime = t.unbracingStartTime ∧
    (pidFinishStage t).inPosition = t.inPosition ∧
    (pidFinishStage t).lastInPositionTime = t.lastInPositionTime ∧
    (pidFinishStage t).currDesiredAngle = t.currDesiredAngle := by
  simp [pidFinishStage, setPower]

/-- The supervisor-level fields never written by the whole PID section. -/
theorem pidSection_super (e : TickEnv) (t : LCState) :
    (pidSection e t).enable = t.enable ∧
    (pidSection e t).enableAtTime = t.enableAtTime ∧
    (pidSection e t).msgs = t.msgs ∧
    (pidSection e t).enabledExternally = t.enabledExternally ∧
    (pidSection e t).isCalibrated = t.isCalibrated ∧
    (pidSection e t).calState = t.calState ∧
    (pidSection e t).bracing = t.bracing ∧
    (pidSection e t).desiredAngle = t.desiredAngle ∧
    (pidSection e t).currentAngle = t.currentAngle ∧
    (pidSection e t).burnoutPowerThresh = t.burnoutPowerThresh ∧
    (pidSection e t).maxErrorSum = t.maxErrorSum ∧
    (pidSection e t).radSpeed = t.radSpeed ∧
    (pidSection e t).checkForLoadWhenInPosition = t.checkForLoadWhenInPosition ∧
    (pidSection e t).unbracingStartTime = t.unbracingStartTime := by
  obtain ⟨a1, a2, a3, a4, a5, a6, a7, a8, a9, a10, a11, a12, a13, a14, a15, a16⟩ :=
    pidPowerStage_super e t
  obtain ⟨b1, b2, b3, b4, b5, b6, b7, b8, b9, b10, b11, b12, b13, b14, b15⟩ :=
    pidInPositionStage_super e (pidPowerStage e t)
  obtain ⟨c1, c2, c3, c4, c5, c6, c7, c8, c9, c10, c11, c12, c13, c14, c15, c16, c17⟩ :=
    pidFinishStage_super (pidInPositionStage e (pidPowerStage e t))
  unfold pidSection
  exact ⟨c1.trans (b1.trans a1), c2.trans (b2.trans a2), c3.trans (b3.trans a3),
    c4.trans (b4.trans a4), c5.trans (b5.trans a5), c6.trans (b6.trans a6),
    c7.trans (b7.trans a7), c8.trans (b8.trans a8), c9.trans (b9.trans a9),
    c10.trans (b10.trans a10), c11.trans (b11.trans a11), c12.trans (b12.trans a12),
    c13.trans (b13.trans a13), c14.trans (b14.trans a14)⟩

end LiftController

namespace LiftController

/-! ## C1: auto re-enable after `Disable(true)` -/

/-- The state after calling `Disable(true)` at time 1000 on the calibrated,
externally-enabled sample controller. -/
def c1DisabledState : LCState := disableOp 1000 true sampleCalibrated

/-- Counterexample to C1 as stated.  The claim asserts that after
`Disable(true)` on a calibrated controller, the controller auto re-enables
(and emits the auto-enabled notification) on the first tick at which the
deadline has passed and the joint is not moving, "regardless of the prior
value of the externally-enabled flag".  But `Disable` clears
`enabledExternally_`, and the re-enable branch of `Update()` requires that
flag, so on the concrete tick at time 3001 (deadline 3000 passed, joint at
rest, off the charger) the controller stays disabled and sends nothing. -/
theorem c1_auto_reenable_counterexample :
    c1DisabledState.isCalibrated = true ∧
    c1DisabledState.enable = false ∧
    c1DisabledState.enableAtTime = 1000 + REENABLE_TIMEOUT_MS ∧
    isMoving (updateTickPre (quietEnv 3001) c1DisabledState) = false ∧
    c1DisabledState.enableAtTime ≤ 3001 ∧
    (updateTick (quietEnv 3001) c1DisabledState).enable = false ∧
    (updateTick (quietEnv 3001) c1DisabledState).msgs = c1DisabledState.msgs := by
  refine ⟨rfl, rfl, rfl, ?_, by decide, ?_, ?_⟩ <;> with_unfolding_all decide

/-- C1 (amended).  `Disable(true)` (and any `DisableInternal(true)`) sets a
re-enable deadline `REENABLE_TIMEOUT_MS` past the current time and clears
the externally-enabled flag.  While disabled with a pending deadline on a
calibrated controller off the charger: a tick with the joint still moving
pushes the deadline to `now + REENABLE_TIMEOUT_MS` and stays disabled; a
tick with the joint at rest and the deadline passed re-enables and emits
the auto-enabled notification **only if the externally-enabled flag is
set** (which `Disable` itself clears, so an external `Disable(true)` is
never auto-reverted; the flag survives internal disables such as the
burnout path, which is whom the auto re-enable serves). -/
theorem disable_auto_reenable_amended (s : LCState) (e : TickEnv) (now : ℕ)
    (hcal : s.isCalibrated = true) (hen : s.enable = false)
    (hchg : e.onCharger = false) (hat0 : s.enableAtTime ≠ 0) :
    (∀ t : LCState, (disableOp now true t).enableAtTime = now + REENABLE_TIMEOUT_MS ∧
        (disableOp now true t).enabledExternally = false ∧
        (disableOp now true t).enable = false) ∧
    (isMoving (updateTickPre e s) = true →
        (updateTick e s).enable = false ∧
        (updateTick e s).enableAtTime = e.time + REENABLE_TIMEOUT_MS ∧
        (updateTick e s).msgs = s.msgs) ∧
    (isMoving (updateTickPre e s) = false → s.enabledExternally = false →
        (updateTick e s).enable = false ∧
        (updateTick e s).enableAtTime = s.enableAtTime ∧
        (updateTick e s).msgs = s.msgs) ∧
    (isMoving (updateTickPre e s) = false → s.enabledExternally = true →
        s.enableAtTime ≤ e.time → s.bracing = false →
        |s.power| < s.burnoutPowerThresh → s.checkingForLoadStartTime = 0 →
        (updateTick e s).enable = true ∧
        (updateTick e s).enableAtTime = 0 ∧
        (updateTick e s).msgs = s.msgs ++ [LCMsg.motorAutoEnabled true]) := by
  obtain ⟨q1, q2, q3, q4, q5, q6, q7, q8, q9, q10, q11, q12, q13, -⟩ :=
    updateTickPre_proj e s hcal
  rw [updateTick_disabled_eq e s hcal hen hchg hat0]
  refine ⟨?_, ?_, ?_, ?_⟩
  · intro t
    refine ⟨?_, ?_, ?_⟩ <;>
      (simp only [disableOp, disableInternal, setPower]
       repeat' split
       all_goals simp_all)
  · intro hmov
    rw [if_pos hmov]
    exact ⟨by rw [q2, hen], rfl, q10⟩
  · intro hmov hext
    rw [if_neg (by rw [hmov]; exact Bool.false_ne_true)]
    rw [if_neg (by rw [hext]; simp)]
    exact ⟨by rw [q2, hen], q12, q10⟩
  · intro hmov hext hge hbr hpw hclt
    rw [if_neg (by rw [hmov]; exact Bool.false_ne_true)]
    rw [if_pos (by rw [hext]; simp [hge])]
    set X := { updateTickPre e s with
        msgs := (updateTickPre e s).msgs ++ [LCMsg.motorAutoEnabled true] } with hXdef
    have hXen : X.enable = false := by
      show (updateTickPre e s).enable = false
      rw [q2, hen]
    rw [enableInternal_of_disabled hXen]
    set Y := resetAnglePosition X.currentAngle { X with enable := true, enableAtTime := 0 }
      with hYdef
    have hYbr : Y.bracing = false := by
      rw [hYdef, hXdef]; simp [resetAnglePosition, q7, hbr]
    have hYpw : |Y.power| < Y.burnoutPowerThresh := by
      rw [hYdef, hXdef]; simpa [resetAnglePosition, q4, q9] using hpw
    have hYclt : Y.checkingForLoadStartTime = 0 := by
      rw [hYdef, hXdef]; simp [resetAnglePosition, q13, hclt]
    rw [updateEnabledTail_of_quiet e Y hYbr hYpw hYclt]
    obtain ⟨p1, p2, p3, -⟩ := pidSection_super e { Y with potentialBurnoutStartTime := 0 }
    refine ⟨?_, ?_, ?_⟩
    · rw [p1, hYdef]; simp [resetAnglePosition]
    · rw [p2, hYdef]; simp [resetAnglePosition]
    · rw [p3, hYdef, hXdef]; simp [resetAnglePosition, q10]

/-- A controller disabled internally (externally-enabled flag still set,
deadline 3000), as the burnout path leaves it. -/
def c1InternalDisabledState : LCState :=
  { sampleCalibrated with enable := false, enableAtTime := 3000 }

/-- Witness for the amended C1: a controller disabled by the burnout path
(externally-enabled flag still set, deadline 3000) re-enables on the quiet
tick at time 3001 and emits the auto-enabled notification; and
`Disable(true)` at time 1000 sets deadline 3000 while clearing the
externally-enabled flag. -/
theorem disable_auto_reenable_amended_witness :
    c1InternalDisabledState.isCalibrated = true ∧
    c1InternalDisabledState.enable = false ∧
    (quietEnv 3001).onCharger = false ∧
    c1InternalDisabledState.enableAtTime ≠ 0 ∧
    (∀ t : LCState, (disableOp 1000 true t).enableAtTime = 1000 + REENABLE_TIMEOUT_MS ∧
        (disableOp 1000 true t).enabledExternally = false ∧
        (disableOp 1000 true t).enable = false) ∧
    ((updateTick (quietEnv 3001) c1InternalDisabledState).enable = true ∧
     (updateTick (quietEnv 3001) c1InternalDisabledState).enableAtTime = 0 ∧
     (updateTick (quietEnv 3001) c1InternalDisabledState).msgs
       = c1InternalDisabledState.msgs ++ [LCMsg.motorAutoEnabled true]) := by
  refine ⟨rfl, rfl, rfl, by decide, ?_, ?_⟩
  · exact (disable_auto_reenable_amended c1InternalDisabledState (quietEnv 3001) 1000
      rfl rfl rfl (by decide)).1
  · exact (disable_auto_reenable_amended c1InternalDisabledState (quietEnv 3001) 1000
      rfl rfl rfl (by decide)).2.2.2 (by with_unfolding_all decide) rfl (by decide) rfl
      (by with_unfolding_all decide) rfl

end LiftController

namespace LiftController

/-- A calibrated controller two seconds into an over-threshold power run:
applied power 1, burnout timer armed at time 100 (the deciding tick will
be at time 2200). -/
def burnoutSampleState : LCState :=
  { sampleCalibrated with power := 1, potentialBurnoutStartTime := 100 }

/-- Witness for C2: on the deciding tick (time 2200, armed at 100, power 1
at or above the threshold 0.53) with the joint in position, the sample
controller disables itself with deadline 4200 and reports going limp. -/
theorem motorBurnoutProtection_decision_witness :
    burnoutSampleState.isCalibrated = true ∧
    burnoutSampleState.burnoutPowerThresh ≤ |burnoutSampleState.power| ∧
    burnoutSampleState.potentialBurnoutStartTime ≠ 0 ∧
    BURNOUT_TIME_THRESH_MS
      < (quietEnv 2200).time - burnoutSampleState.potentialBurnoutStartTime ∧
    (updateTick (quietEnv 2200) burnoutSampleState).enable = false ∧
    (updateTick (quietEnv 2200) burnoutSampleState).enableAtTime
      = (quietEnv 2200).time + REENABLE_TIMEOUT_MS ∧
    (updateTick (quietEnv 2200) burnoutSampleState).msgs
      = burnoutSampleState.msgs ++ [LCMsg.motorAutoEnabled false] := by
  have h := motorBurnoutProtection_decision (quietEnv 2200) burnoutSampleState
    rfl rfl rfl rfl rfl rfl (by with_unfolding_all decide) (by decide) (by decide)
  have h1 := h.1 (by decide)
  exact ⟨rfl, by with_unfolding_all decide, by decide, by decide, h1.1, h1.2.1, h1.2.2.1⟩

/-- A short run from the initial state: brace, then one tick. -/
def c4Ops : List LCOp := [LCOp.brace, LCOp.tick (quietEnv 100)]

/-- Witness for C4: on the concrete run `c4Ops` every actuated power is
bounded by 1. -/
theorem halPowers_bounded_witness :
    (∀ op ∈ c4Ops, opCalibPowerOk op) ∧
    ∀ p ∈ (runOps (initState sampleParams) c4Ops).powerTrace, |p| ≤ 1 := by
  have hop : ∀ op ∈ c4Ops, opCalibPowerOk op := by
    intro op hmem
    rcases List.mem_cons.mp hmem with rfl | hmem
    · trivial
    rcases List.mem_singleton.mp hmem with rfl
    show |(quietEnv 100).calibPower| ≤ 1
    rw [show (quietEnv 100).calibPower = -(1/2) from rfl, abs_le]
    constructor <;> norm_num
  exact ⟨hop, halPowers_bounded sampleParams c4Ops hop⟩

end LiftController

namespace LiftController

/-! ## C3: the integral clamp -/

theorem calibSwitch_ghost (e : TickEnv) (s : LCState) :
    (calibSwitch e s).reachedClip = s.reachedClip ∧
    (calibSwitch e s).maxErrorSum = s.maxErrorSum := by
  simp only [calibSwitch]
  repeat' split
  all_goals simp [calibCompleteBody, setPower, onMotorCalibrated, resetAnglePosition]

theorem calibTamperCheck_ghost (s : LCState) :
    (calibTamperCheck s).reachedClip = s.reachedClip ∧
    (calibTamperCheck s).maxErrorSum = s.maxErrorSum := by
  simp only [calibTamperCheck]
  repeat' split
  all_goals simp [resetAnglePosition]

theorem calibrationUpdate_ghost (e : TickEnv) (s : LCState) :
    (calibrationUpdate e s).reachedClip = s.reachedClip ∧
    (calibrationUpdate e s).maxErrorSum = s.maxErrorSum := by
  unfold calibrationUpdate
  split
  · exact ⟨rfl, rfl⟩
  · obtain ⟨h1, h2⟩ := calibSwitch_ghost e s
    obtain ⟨g1, g2⟩ := calibTamperCheck_ghost (calibSwitch e s)
    exact ⟨g1.trans h1, g2.trans h2⟩

theorem updateTickPre_ghost (e : TickEnv) (s : LCState) :
    (updateTickPre e s).reachedClip = false ∧
    (updateTickPre e s).maxErrorSum = s.maxErrorSum := by
  obtain ⟨h1, h2⟩ := calibrationUpdate_ghost e { s with reachedClip := false }
  simp only [updateTickPre, poseAndSpeedFilterUpdate]
  split <;> simp [h1, h2]

theorem disableInternal_ghost (now : ℕ) (b : Bool) (s : LCState) :
    (disableInternal now b s).reachedClip = s.reachedClip ∧
    (disableInternal now b s).maxErrorSum = s.maxErrorSum := by
  simp only [disableInternal, setPower]
  repeat' split
  all_goals simp

theorem enableInternal_ghost (s : LCState) :
    (enableInternal s).reachedClip = s.reachedClip ∧
    (enableInternal s).maxErrorSum = s.maxErrorSum := by
  simp only [enableInternal, resetAnglePosition]
  split <;> simp

theorem chargerGate_ghost (e : TickEnv) (s : LCState) :
    (chargerGate e s).reachedClip = s.reachedClip ∧
    (chargerGate e s).maxErrorSum = s.maxErrorSum := by
  simp only [chargerGate]
  split
  · exact disableInternal_ghost _ _ _
  · split
    · exact enableInternal_ghost s
    · exact ⟨rfl, rfl⟩

theorem motorBurnoutProtection_ghost (e : TickEnv) (s : LCState) :
    (motorBurnoutProtection e s).2.reachedClip = s.reachedClip ∧
    (motorBurnoutProtection e s).2.maxErrorSum = s.maxErrorSum := by
  simp only [motorBurnoutProtection, startCalibrationRoutine]
  repeat' split
  all_goals
    first
      | exact ⟨rfl, rfl⟩
      | (refine ⟨?_, ?_⟩ <;>
          (obtain ⟨h1, h2⟩ := disableInternal_ghost e.time true
            { s with msgs := s.msgs ++ [LCMsg.motorAutoEnabled false] }
           simp [h1, h2]))

theorem unbraceSettleCheck_ghost (e : TickEnv) (s : LCState) :
    (unbraceSettleCheck e s).reachedClip = s.reachedClip ∧
    (unbraceSettleCheck e s).maxErrorSum = s.maxErrorSum := by
  simp only [unbraceSettleCheck, resetAnglePosition]
  split <;> simp

theorem loadCheckBlock_some_ghost {e : TickEnv} {s t : LCState}
    (h : loadCheckBlock e s = some t) :
    t.reachedClip = s.reachedClip ∧ t.maxErrorSum = s.maxErrorSum := by
  unfold loadCheckBlock at h
  split at h
  · split at h
    · cases h; exact ⟨rfl, rfl⟩
    · split at h
      · cases h; exact ⟨rfl, rfl⟩
      · cases h
  · cases h; exact ⟨rfl, rfl⟩

/-- The enabled tail of a tick either leaves the ghost clip flag unchanged
(an early return) or is the PID section applied to some state carrying the
same integral clamp ceiling. -/
theorem updateEnabledTail_clip_cases (e : TickEnv) (t : LCState) :
    ((updateEnabledTail e t).reachedClip = t.reachedClip ∧
     (updateEnabledTail e t).maxErrorSum = t.maxErrorSum) ∨
    (∃ u : LCState, u.maxErrorSum = t.maxErrorSum ∧
      updateEnabledTail e t = pidSection e u) := by
  simp only [updateEnabledTail]
  split
  · exact Or.inl (unbraceSettleCheck_ghost e t)
  · split
    next s₁ heq =>
      left
      obtain ⟨m1, m2⟩ := motorBurnoutProtection_ghost e t
      rw [heq] at m1 m2
      obtain ⟨u1, u2⟩ := unbraceSettleCheck_ghost e s₁
      exact ⟨u1.trans m1, u2.trans m2⟩
    next s₁ heq =>
      obtain ⟨m1, m2⟩ := motorBurnoutProtection_ghost e t
      rw [heq] at m1 m2
      split
      · left
        exact ⟨m1, m2⟩
      next u hlc =>
        right
        obtain ⟨l1, l2⟩ := loadCheckBlock_some_ghost hlc
        exact ⟨u, l2.trans m2, rfl⟩

/-- A full tick either never reaches the PID integral clip (the ghost flag
stays false) or equals the PID section applied to a state whose clamp
ceiling is the caller's. -/
theorem updateTick_clip_cases (e : TickEnv) (s : LCState) :
    (updateTick e s).reachedClip = false ∨
    (∃ u : LCState, u.maxErrorSum = s.maxErrorSum ∧
      updateTick e s = pidSection e u) := by
  obtain ⟨hpre1, hpre2⟩ := updateTickPre_ghost e s
  simp only [updateTick]
  split
  · exact Or.inl hpre1
  · simp only [updateTickMain]
    obtain ⟨hg1, hg2⟩ := chargerGate_ghost e (updateTickPre e s)
    split
    · split
      · exact Or.inl (hg1.trans hpre1)
      · split
        · exact Or.inl (hg1.trans hpre1)
        · split
          · rcases updateEnabledTail_clip_cases e (enableInternal
                { chargerGate e (updateTickPre e s) with
                    msgs := (chargerGate e (updateTickPre e s)).msgs
                      ++ [LCMsg.motorAutoEnabled true] }) with ⟨h1, h2⟩ | ⟨u, hu, hequ⟩
            · left
              obtain ⟨i1, i2⟩ := enableInternal_ghost
                { chargerGate e (updateTickPre e s) with
                    msgs := (chargerGate e (updateTickPre e s)).msgs
                      ++ [LCMsg.motorAutoEnabled true] }
              exact h1.trans (i1.trans (hg1.trans hpre1))
            · right
              refine ⟨u, ?_, hequ⟩
              obtain ⟨i1, i2⟩ := enableInternal_ghost
                { chargerGate e (updateTickPre e s) with
                    msgs := (chargerGate e (updateTickPre e s)).msgs
                      ++ [LCMsg.motorAutoEnabled true] }
              rw [hu, i2]
              exact hg2.trans hpre2
          · exact Or.inl (hg1.trans hpre1)
    · rcases updateEnabledTail_clip_cases e (chargerGate e (updateTickPre e s))
        with ⟨h1, h2⟩ | ⟨u, hu, hequ⟩
      · exact Or.inl (h1.trans (hg1.trans hpre1))
      · right
        exact ⟨u, hu.trans (hg2.trans hpre2), hequ⟩

theorem pidFinishStage_sum (t : LCState) :
    (pidFinishStage t).angleErrorSum
      = clipQ t.angleErrorSum (-t.maxErrorSum) t.maxErrorSum := rfl

theorem abs_clipQ_le {x m : ℚ} (hm : 0 ≤ m) : |clipQ x (-m) m| ≤ m := by
  rw [clipQ_eq, abs_le]
  constructor
  · exact le_min (le_max_right x (-m)) (by linarith)
  · exact min_le_right _ m

/-- After the PID section runs, the integral sum respects the clamp
ceiling in force during the tick. -/
theorem pidSection_integral (e : TickEnv) (t : LCState) (hm : 0 ≤ t.maxErrorSum) :
    |(pidSection e t).angleErrorSum| ≤ t.maxErrorSum := by
  obtain ⟨-, -, -, -, -, -, -, -, -, -, a11, -⟩ := pidPowerStage_super e t
  obtain ⟨-, -, -, -, -, -, -, -, -, -, b11, -⟩ :=
    pidInPositionStage_super e (pidPowerStage e t)
  have hms : (pidInPositionStage e (pidPowerStage e t)).maxErrorSum = t.maxErrorSum :=
    b11.trans a11
  show |(pidFinishStage (pidInPositionStage e (pidPowerStage e t))).angleErrorSum|
      ≤ t.maxErrorSum
  rw [pidFinishStage_sum, hms]
  exact abs_clipQ_le hm

/-- C3 (amended).  Whenever `Update()` actually reaches the PID
integral-clip step (observed by the ghost `reachedClip` flag) and the
clamp ceiling is nonnegative, `|integralErrorSum| <= maxErrorSum` holds
after the tick.  Ticks that return early leave the sum unchanged (or zero
it on a disable edge), so after `SetGains` lowers the ceiling below the
accumulated sum the bound can fail on early-returning ticks — see the
counterexample — until the next full PID tick restores it. -/
theorem integral_clamp_amended (e : TickEnv) (s : LCState)
    (hmax : 0 ≤ s.maxErrorSum)
    (hclip : (updateTick e s).reachedClip = true) :
    |(updateTick e s).angleErrorSum| ≤ s.maxErrorSum := by
  rcases updateTick_clip_cases e s with h | ⟨u, hu, hequ⟩
  · rw [h] at hclip; cases hclip
  · rw [hequ]
    rw [← hu] at hmax
    calc |(pidSection e u).angleErrorSum| ≤ u.maxErrorSum := pidSection_integral e u hmax
    _ = s.maxErrorSum := hu

end LiftController

namespace LiftController

/-- A concrete operation interleaving from the initial state: start-up
calibration runs to completion (ticks at 0, 501, 752), an angle command
and one PID tick accumulate integral error 1/2, then `SetGains` lowers the
clamp ceiling to 0 and `Brace()` makes the final tick return before the
integral clip. -/
def c3Ops : List LCOp :=
  [LCOp.startCalibration false MotorCalibrationReason.startup,
   LCOp.tick (quietEnv 0),
   LCOp.tick (quietEnv 501),
   LCOp.tick (quietEnv 752),
   LCOp.setDesiredAngle false 1 1 1,
   LCOp.tick { quietEnv 760 with vpgPos := 1/2 },
   LCOp.setGains 3 (1/10) 3000 0,
   LCOp.brace,
   LCOp.tick (quietEnv 770)]

/-- Counterexample to C3 as stated.  The claim asserts
`|integralErrorSum| <= maxErrorSum` after each `Update()` for every
interleaving of setter calls, "including SetGains, which changes the
clamp ceiling at runtime".  On the concrete reachable run `c3Ops` the
last `Update()` (during bracing) returns before the integral clip and
leaves `|integralErrorSum| = 1/2 > 0 = maxErrorSum`. -/
theorem integral_clamp_counterexample :
    (runOps (initState sampleParams) c3Ops).maxErrorSum = 0 ∧
    (runOps (initState sampleParams) c3Ops).angleErrorSum = 1/2 ∧
    ¬ (|(runOps (initState sampleParams) c3Ops).angleErrorSum|
        ≤ (runOps (initState sampleParams) c3Ops).maxErrorSum) := by
  refine ⟨?_, ?_, ?_⟩ <;> with_unfolding_all decide

/-- Witness for the amended C3: a quiet PID tick on the calibrated sample
state reaches the clip and respects the ceiling. -/
theorem integral_clamp_amended_witness :
    0 ≤ sampleCalibrated.maxErrorSum ∧
    (updateTick (quietEnv 10) sampleCalibrated).reachedClip = true ∧
    |(updateTick (quietEnv 10) sampleCalibrated).angleErrorSum|
      ≤ sampleCalibrated.maxErrorSum :=
  ⟨by decide, by with_unfolding_all decide,
   integral_clamp_amended (quietEnv 10) sampleCalibrated (by decide)
     (by with_unfolding_all decide)⟩

end LiftController

namespace LiftController

/-! ## C6: tamper detection during calibration -/

/-- During the waiting phases of a calibration tick (`LCS_WAIT_FOR_STOP`,
or `LCS_SET_CURR_ANGLE` before the relax dwell has elapsed), the switch
part of `CalibrationUpdate` leaves all tamper-relevant bookkeeping
untouched and the machine still calibrating. -/
theorem calibSwitch_waitOrSet (e : TickEnv) (s : LCState)
    (hst : s.calState = LiftCalibState.waitForStop ∨
      (s.calState = LiftCalibState.setCurrAngle ∧
        e.time - s.lastLiftMovedTime ≤ LIFT_RELAX_TIME_MS)) :
    (calibSwitch e s).currentAngle = s.currentAngle ∧
    (calibSwitch e s).lowLiftAngleDuringCalib = s.lowLiftAngleDuringCalib ∧
    (calibSwitch e s).liftAngleAbortCount = s.liftAngleAbortCount ∧
    (calibSwitch e s).firstCalibration = s.firstCalibration ∧
    (calibSwitch e s).isCalibrated = s.isCalibrated ∧
    (calibSwitch e s).desiredAngle = s.desiredAngle ∧
    (calibSwitch e s).currDesiredAngle = s.currDesiredAngle ∧
    (calibSwitch e s).P = s.P ∧
    isCalibrating (calibSwitch e s) = true := by
  rcases hst with h | ⟨h, hrelax⟩
  · simp only [calibSwitch, h]
    split
    · split
      · simp [setPower, isCalibrating]
      · simp [isCalibrating, h]
    · simp [isCalibrating, h]
  · simp only [calibSwitch, h]
    rw [if_neg (by simpa using hrelax)]
    simp [isCalibrating, h]

/-- The tamper check on the deciding tick: the count reaches the abort
threshold and fires.  First-ever calibration restarts from
`LCS_LOWER_LIFT`; later calibrations freeze the current angle as the
reference and jump to `LCS_COMPLETE`. -/
theorem calibTamperCheck_fires (t : LCState)
    (hcal : isCalibrating t = true)
    (hlow : ¬ (t.lowLiftAngleDuringCalib > t.currentAngle))
    (hdiff : t.currentAngle - t.lowLiftAngleDuringCalib > t.P.upwardsAbortRad)
    (hcnt : UPWARDS_ABORT_CNT ≤ t.liftAngleAbortCount + 1) :
    (t.firstCalibration = true →
        (calibTamperCheck t).calState = LiftCalibState.lowerLift ∧
        (calibTamperCheck t).isCalibrated = t.isCalibrated ∧
        (calibTamperCheck t).desiredAngle = t.desiredAngle ∧
        (calibTamperCheck t).currDesiredAngle = t.currDesiredAngle ∧
        (calibTamperCheck t).tamperFired = true) ∧
    (t.firstCalibration = false →
        (calibTamperCheck t).calState = LiftCalibState.complete ∧
        (calibTamperCheck t).isCalibrated = t.isCalibrated ∧
        (calibTamperCheck t).desiredAngle = t.currentAngle ∧
        (calibTamperCheck t).currDesiredAngle = t.currentAngle ∧
        (calibTamperCheck t).tamperFired = true) := by
  constructor <;> intro hfc <;>
    simp [calibTamperCheck, hcal, hlow, hdiff, hcnt, hfc, resetAnglePosition, ge_iff_le]

/-- The observable calibration fields of the tick opening are those left
by `CalibrationUpdate` (the pose filter and encoder latch never touch
them). -/
theorem updateTickPre_calib_fields (e : TickEnv) (s : LCState) :
    (updateTickPre e s).calState
      = (calibrationUpdate e { s with reachedClip := false }).calState ∧
    (updateTickPre e s).isCalibrated
      = (calibrationUpdate e { s with reachedClip := false }).isCalibrated ∧
    (updateTickPre e s).desiredAngle
      = (calibrationUpdate e { s with reachedClip := false }).desiredAngle ∧
    (updateTickPre e s).currDesiredAngle
      = (calibrationUpdate e { s with reachedClip := false }).currDesiredAngle ∧
    (updateTickPre e s).tamperFired
      = (calibrationUpdate e { s with reachedClip := false }).tamperFired := by
  simp only [updateTickPre, poseAndSpeedFilterUpdate]
  split <;> simp

/-- C6.  On any tick of an active calibration in a waiting phase
(`LCS_WAIT_FOR_STOP`, or `LCS_SET_CURR_ANGLE` before the relax dwell),
when the current angle has risen above the minimum observed since
calibration start by more than `UPWARDS_LIFT_MOTION_FOR_CALIB_ABORT_RAD`
and this tick is (at least) the
`UPWARDS_LIFT_MOTION_FOR_CALIB_ABORT_CNT`-th consecutive such tick:
a first-ever calibration restarts from `LCS_LOWER_LIFT`, while any later
calibration freezes the pre-tick current angle as desired angle and VPG
setpoint (no snap to the hard-stop angle) and jumps straight to
`LCS_COMPLETE`; in both cases `IsCalibrated()` is still false after the
tick and the ghost tamper flag is raised. -/
theorem tamper_abort_decision (e : TickEnv) (s : LCState)
    (hcal : s.isCalibrated = false)
    (hst : s.calState = LiftCalibState.waitForStop ∨
      (s.calState = LiftCalibState.setCurrAngle ∧
        e.time - s.lastLiftMovedTime ≤ LIFT_RELAX_TIME_MS))
    (hlow : s.lowLiftAngleDuringCalib ≤ s.currentAngle)
    (hdiff : s.currentAngle - s.lowLiftAngleDuringCalib > s.P.upwardsAbortRad)
    (hcnt : UPWARDS_ABORT_CNT ≤ s.liftAngleAbortCount + 1) :
    (s.firstCalibration = true →
        (updateTick e s).calState = LiftCalibState.lowerLift ∧
        (updateTick e s).isCalibrated = false ∧
        (updateTick e s).tamperFired = true) ∧
    (s.firstCalibration = false →
        (updateTick e s).calState = LiftCalibState.complete ∧
        (updateTick e s).isCalibrated = false ∧
        (updateTick e s).desiredAngle = s.currentAngle ∧
        (updateTick e s).currDesiredAngle = s.currentAngle ∧
        (updateTick e s).tamperFired = true) := by
  have hst' : ({ s with reachedClip := false } : LCState).calState
        = LiftCalibState.waitForStop ∨
      (({ s with reachedClip := false } : LCState).calState
          = LiftCalibState.setCurrAngle ∧
        e.time - ({ s with reachedClip := false } : LCState).lastLiftMovedTime
          ≤ LIFT_RELAX_TIME_MS) := hst
  obtain ⟨w1, w2, w3, w4, w5, w6, w7, w8, w9⟩ :=
    calibSwitch_waitOrSet e { s with reachedClip := false } hst'
  have hcu : calibrationUpdate e { s with reachedClip := false }
      = calibTamperCheck (calibSwitch e { s with reachedClip := false }) := by
    simp [calibrationUpdate, hcal]
  obtain ⟨hf1, hf2⟩ := calibTamperCheck_fires
    (calibSwitch e { s with reachedClip := false }) w9
    (by rw [w1, w2]; exact not_lt.mpr hlow)
    (by rw [w1, w2, w8]; exact hdiff)
    (by rw [w3]; exact hcnt)
  obtain ⟨p1, p2, p3, p4, p5⟩ := updateTickPre_calib_fields e s
  have hpcal : (updateTickPre e s).isCalibrated = false := by
    rcases Bool.eq_false_or_eq_true s.firstCalibration with hfc | hfc
    · obtain ⟨-, h2, -⟩ := hf1 (w4.trans hfc)
      rw [p2, hcu, h2, w5]; exact hcal
    · obtain ⟨-, h2, -⟩ := hf2 (w4.trans hfc)
      rw [p2, hcu, h2, w5]; exact hcal
  have htick : updateTick e s = updateTickPre e s := by
    simp [updateTick, hpcal]
  rw [htick]
  constructor
  · intro hfc
    obtain ⟨h1, h2, h3, h4, h5⟩ := hf1 (w4.trans hfc)
    refine ⟨?_, hpcal, ?_⟩
    · rw [p1, hcu, h1]
    · rw [p5, hcu, h5]
  · intro hfc
    obtain ⟨h1, h2, h3, h4, h5⟩ := hf2 (w4.trans hfc)
    refine ⟨?_, hpcal, ?_, ?_, ?_⟩
    · rw [p1, hcu, h1]
    · rw [p3, hcu, h3, w1]
    · rw [p4, hcu, h4, w1]
    · rw [p5, hcu, h5]

end LiftController

namespace LiftController

/-- A mid-calibration state (not the first calibration): waiting for stop,
minimum observed angle 0, current angle raised to 1/2, four consecutive
over-threshold ticks already counted. -/
def tamperSampleState : LCState :=
  { initState sampleParams with
      calState := LiftCalibState.waitForStop
      firstCalibration := false
      currentAngle := mkRat 1 2
      liftAngleAbortCount := 4 }

/-- Witness for C6: the fifth consecutive raised tick of a non-first
calibration aborts by freezing the current angle 1/2 as the reference and
jumping to `LCS_COMPLETE`. -/
theorem tamper_abort_decision_witness :
    tamperSampleState.isCalibrated = false ∧
    tamperSampleState.calState = LiftCalibState.waitForStop ∧
    tamperSampleState.lowLiftAngleDuringCalib ≤ tamperSampleState.currentAngle ∧
    tamperSampleState.currentAngle - tamperSampleState.lowLiftAngleDuringCalib
      > tamperSampleState.P.upwardsAbortRad ∧
    UPWARDS_ABORT_CNT ≤ tamperSampleState.liftAngleAbortCount + 1 ∧
    tamperSampleState.firstCalibration = false ∧
    (updateTick (quietEnv 50) tamperSampleState).calState = LiftCalibState.complete ∧
    (updateTick (quietEnv 50) tamperSampleState).isCalibrated = false ∧
    (updateTick (quietEnv 50) tamperSampleState).desiredAngle
      = tamperSampleState.currentAngle ∧
    (updateTick (quietEnv 50) tamperSampleState).currDesiredAngle
      = tamperSampleState.currentAngle ∧
    (updateTick (quietEnv 50) tamperSampleState).tamperFired = true := by
  have h := (tamper_abort_decision (quietEnv 50) tamperSampleState rfl (Or.inl rfl)
    (by with_unfolding_all decide) (by with_unfolding_all decide) (by decide)).2 rfl
  exact ⟨rfl, rfl, by with_unfolding_all decide, by with_unfolding_all decide,
    by decide, rfl, h.1, h.2.1, h.2.2.1, h.2.2.2.1, h.2.2.2.2⟩

end LiftController

namespace LiftController

/-! ## C7: the in-position debounce -/

theorem calibSwitch_P (e : TickEnv) (s : LCState) : (calibSwitch e s).P = s.P := by
  simp only [calibSwitch]
  repeat' split
  all_goals simp [calibCompleteBody, setPower, onMotorCalibrated, resetAnglePosition]

theorem calibTamperCheck_P (s : LCState) : (calibTamperCheck s).P = s.P := by
  simp only [calibTamperCheck]
  repeat' split
  all_goals simp [resetAnglePosition]

theorem calibrationUpdate_P (e : TickEnv) (s : LCState) :
    (calibrationUpdate e s).P = s.P := by
  unfold calibrationUpdate
  split
  · rfl
  · exact (calibTamperCheck_P _).trans (calibSwitch_P e _)

theorem updateTickPre_P (e : TickEnv) (s : LCState) : (updateTickPre e s).P = s.P := by
  have h := calibrationUpdate_P e { s with reachedClip := false }
  simp only [updateTickPre, poseAndSpeedFilterUpdate]
  split <;> simp [h]

/-- With the VPG setpoint already at the final desired angle, the first
PID stage does not step the profile, so the setpoint is unchanged. -/
theorem pidPowerStage_dwell (e : TickEnv) (t : LCState)
    (hcd : t.currDesiredAngle = t.desiredAngle) :
    (pidPowerStage e t).currDesiredAngle = t.currDesiredAngle := by
  have hne : (t.currDesiredAngle != t.desiredAngle) = false := by simp [hcd]
  simp only [pidPowerStage, hne, Bool.false_eq_true, if_false]
  repeat' split
  all_goals simp

/-- The in-position stage under tolerance with the setpoint at the target
and no pending load-check request: the dwell timer is armed on the first
under-tolerance tick and the in-position flag is latched only once the
dwell `IN_POSITION_TIME_MS` has strictly elapsed. -/
theorem pidInPositionStage_dwell (e : TickEnv) (t : LCState)
    (hcd : t.desiredAngle = t.currDesiredAngle)
    (herr : |t.currDesiredAngle - t.currentAngle| < t.P.liftAngleTol)
    (hcfl : t.checkForLoadWhenInPosition = false) :
    (pidInPositionStage e t).checkingForLoadStartTime = t.checkingForLoadStartTime ∧
    (t.lastInPositionTime = 0 →
        (pidInPositionStage e t).lastInPositionTime = e.time ∧
        (pidInPositionStage e t).inPosition = t.inPosition) ∧
    (t.lastInPositionTime ≠ 0 →
        (pidInPositionStage e t).lastInPositionTime = t.lastInPositionTime ∧
        (pidInPositionStage e t).inPosition
          = (decide (IN_POSITION_TIME_MS < e.time - t.lastInPositionTime) || t.inPosition)) := by
  have hcond : (absQ (t.currDesiredAngle - t.currentAngle) < t.P.liftAngleTol
      && t.desiredAngle == t.currDesiredAngle) = true := by
    rw [absQ_eq_abs]
    simp [herr, hcd]
  simp only [pidInPositionStage, hcond, if_true]
  refine ⟨?_, ?_, ?_⟩
  · repeat' split
    all_goals simp_all
  · intro h0
    repeat' split
    all_goals simp_all
  · intro h0
    repeat' split
    all_goals simp_all

end LiftController

namespace LiftController

theorem pidPowerStage_P (e : TickEnv) (t : LCState) : (pidPowerStage e t).P = t.P := by
  simp only [pidPowerStage]
  repeat' split
  all_goals simp

theorem pidFinishStage_clt (t : LCState) :
    (pidFinishStage t).checkingForLoadStartTime = t.checkingForLoadStartTime := rfl

theorem pidPowerStage_clt (e : TickEnv) (t : LCState) :
    (pidPowerStage e t).checkingForLoadStartTime = t.checkingForLoadStartTime := by
  simp only [pidPowerStage]
  repeat' split
  all_goals simp

theorem pidInPositionStage_P (e : TickEnv) (t : LCState) :
    (pidInPositionStage e t).P = t.P := by
  simp only [pidInPositionStage]
  repeat' split
  all_goals simp

theorem pidFinishStage_P (t : LCState) : (pidFinishStage t).P = t.P := rfl

/-- The controller-state invariant of the in-position dwell scenario:
calibrated and idle, enabled, not bracing, no load-check activity, and
VPG setpoint resting at the final desired angle. -/
def DwellInv (s : LCState) : Prop :=
  s.isCalibrated = true ∧ s.calState = LiftCalibState.idle ∧ s.enable = true ∧
  s.bracing = false ∧ s.checkForLoadWhenInPosition = false ∧
  s.checkingForLoadStartTime = 0 ∧ s.currDesiredAngle = s.desiredAngle

/-- The per-tick environment/state side conditions of the dwell scenario:
off the charger, applied power below the burnout threshold, and the
post-filter angle error within tolerance. -/
def DwellTickOK (s : LCState) (e : TickEnv) : Prop :=
  e.onCharger = false ∧ absQ s.power < s.burnoutPowerThresh ∧
  absQ (s.desiredAngle - (s.currentAngle + (e.halPos - s.prevHalPos))) < s.P.liftAngleTol

instance (s : LCState) (e : TickEnv) : Decidable (DwellTickOK s e) :=
  inferInstanceAs (Decidable (e.onCharger = false ∧ absQ s.power < s.burnoutPowerThresh ∧
    absQ (s.desiredAngle - (s.currentAngle + (e.halPos - s.prevHalPos))) < s.P.liftAngleTol))

/-- One tick of the dwell scenario: the invariant is preserved; the dwell
timer is armed with the tick time when previously unarmed (leaving the
in-position flag untouched — never latched on the first under-tolerance
tick); once armed at `T`, the flag is set exactly when
`IN_POSITION_TIME_MS` has strictly elapsed since `T`. -/
theorem dwell_tick (e : TickEnv) (s : LCState)
    (hInv : DwellInv s) (hok : DwellTickOK s e) :
    DwellInv (updateTick e s) ∧
    (updateTick e s).P = s.P ∧
    (s.lastInPositionTime = 0 →
        (updateTick e s).lastInPositionTime = e.time ∧
        (updateTick e s).inPosition = s.inPosition) ∧
    (s.lastInPositionTime ≠ 0 →
        (updateTick e s).lastInPositionTime = s.lastInPositionTime ∧
        (updateTick e s).inPosition
          = (decide (IN_POSITION_TIME_MS < e.time - s.lastInPositionTime)
              || s.inPosition)) := by
  obtain ⟨hcal, hidle, hen, hbr, hcfl, hclt, hcd⟩ := hInv
  obtain ⟨hchg, hpw, herr⟩ := hok
  obtain ⟨q1, q2, q3, q4, q5, q6, q7, q8, q9, q10, q11, q12, q13, q14, q15, q16,
    q17, q18, q19, q20, q21, q22⟩ := updateTickPre_proj e s hcal
  have hPpre : (updateTickPre e s).P = s.P := updateTickPre_P e s
  rw [updateTick_enabled_eq e s hcal hen hchg]
  rw [updateEnabledTail_of_quiet e _ (q7.trans hbr)
    (by rw [q4, q9, ← absQ_eq_abs]; exact hpw) (q13.trans hclt)]
  set t₀ : LCState := { updateTickPre e s with potentialBurnoutStartTime := 0 } with ht₀
  have h0cd : t₀.currDesiredAngle = t₀.desiredAngle := by
    show (updateTickPre e s).currDesiredAngle = (updateTickPre e s).desiredAngle
    rw [q18, q17, hcd]
  have h0P : t₀.P = s.P := hPpre
  obtain ⟨a1, a2, a3, a4, a5, a6, a7, a8, a9, a10, a11, a12, a13, a14, a15, a16⟩ :=
    pidPowerStage_super e t₀
  have haP : (pidPowerStage e t₀).P = t₀.P := pidPowerStage_P e t₀
  have hacd : (pidPowerStage e t₀).currDesiredAngle = t₀.currDesiredAngle :=
    pidPowerStage_dwell e t₀ h0cd
  set t₁ := pidPowerStage e t₀ with ht₁
  have h1cd : t₁.desiredAngle = t₁.currDesiredAngle := by
    rw [a8, hacd, h0cd]
  have h1err : |t₁.currDesiredAngle - t₁.currentAngle| < t₁.P.liftAngleTol := by
    rw [hacd, a9, haP, h0P]
    show |(updateTickPre e s).currDesiredAngle - (updateTickPre e s).currentAngle|
        < s.P.liftAngleTol
    rw [q18, q22, hcd, ← absQ_eq_abs]
    exact herr
  have h1cfl : t₁.checkForLoadWhenInPosition = false := by
    rw [a13]
    show (updateTickPre e s).checkForLoadWhenInPosition = false
    rw [q14, hcfl]
  obtain ⟨d1, d2, d3⟩ := pidInPositionStage_dwell e t₁ h1cd h1err h1cfl
  obtain ⟨b1, b2, b3, b4, b5, b6, b7, b8, b9, b10, b11, b12, b13, b14, b15⟩ :=
    pidInPositionStage_super e t₁
  set t₂ := pidInPositionStage e t₁ with ht₂
  obtain ⟨c1, c2, c3, c4, c5, c6, c7, c8, c9, c10, c11, c12, c13, c14, c15, c16, c17⟩ :=
    pidFinishStage_super t₂
  have h1lip : t₁.lastInPositionTime = s.lastInPositionTime := by
    rw [a16]
    show (updateTickPre e s).lastInPositionTime = s.lastInPositionTime
    exact q19
  have h1ip : t₁.inPosition = s.inPosition := by
    rw [a15]
    show (updateTickPre e s).inPosition = s.inPosition
    exact q6
  refine ⟨⟨?_, ?_, ?_, ?_, ?_, ?_, ?_⟩, ?_, ?_, ?_⟩
  · show (pidFinishStage t₂).isCalibrated = true
    rw [c5, b5, a5]
    show (updateTickPre e s).isCalibrated = true
    exact q1
  · show (pidFinishStage t₂).calState = LiftCalibState.idle
    rw [c6, b6, a6]
    show (updateTickPre e s).calState = LiftCalibState.idle
    rw [q3, hidle]
  · show (pidFinishStage t₂).enable = true
    rw [c1, b1, a1]
    show (updateTickPre e s).enable = true
    rw [q2, hen]
  · show (pidFinishStage t₂).bracing = false
    rw [c7, b7, a7]
    show (updateTickPre e s).bracing = false
    rw [q7, hbr]
  · show (pidFinishStage t₂).checkForLoadWhenInPosition = false
    rw [c13, b13]
    exact h1cfl
  · show (pidFinishStage t₂).checkingForLoadStartTime = 0
    rw [pidFinishStage_clt, d1]
    rw [ht₁, pidPowerStage_clt]
    show (updateTickPre e s).checkingForLoadStartTime = 0
    rw [q13, hclt]
  · show (pidFinishStage t₂).currDesiredAngle = (pidFinishStage t₂).desiredAngle
    rw [c17, b15, c8, b8, hacd, h0cd, a8]
  · show (pidFinishStage t₂).P = s.P
    rw [pidFinishStage_P, ht₂, pidInPositionStage_P, ht₁, pidPowerStage_P]
    exact h0P
  · intro h0
    obtain ⟨e1, e2⟩ := d2 (h1lip.trans h0)
    constructor
    · show (pidFinishStage t₂).lastInPositionTime = e.time
      rw [c16, e1]
    · show (pidFinishStage t₂).inPosition = s.inPosition
      rw [c15, e2, h1ip]
  · intro h0
    obtain ⟨e1, e2⟩ := d3 (by rw [h1lip]; exact h0)
    constructor
    · show (pidFinishStage t₂).lastInPositionTime = s.lastInPositionTime
      rw [c16, e1, h1lip]
    · show (pidFinishStage t₂).inPosition
          = (decide (IN_POSITION_TIME_MS < e.time - s.lastInPositionTime) || s.inPosition)
      rw [c15, e2, h1ip, h1lip]

end LiftController

namespace LiftController

/-- Iterating `dwell_tick` along a run whose dwell timer is already armed
at `T ≠ 0`: the invariant and the armed timer persist, and after the tick
at index `k` the in-position flag reads exactly
`decide (T + IN_POSITION_TIME_MS < time of tick k)`. -/
theorem dwell_run (es : List TickEnv) : ∀ (s : LCState) (tPrev T : ℕ),
    DwellInv s → s.lastInPositionTime = T → T ≠ 0 →
    s.inPosition = decide (T + IN_POSITION_TIME_MS < tPrev) →
    List.Chain (fun a b => a < b) tPrev (es.map TickEnv.time) →
    (∀ k : Fin es.length, DwellTickOK (runTicks s (es.take k.1)) (es.get k)) →
    DwellInv (runTicks s es) ∧ (runTicks s es).lastInPositionTime = T ∧
    ∀ k : Fin es.length,
      (runTicks s (es.take (k.1 + 1))).inPosition
        = decide (T + IN_POSITION_TIME_MS < (es.get k).time) := by
  induction es with
  | nil =>
    intro s tPrev T hInv hlip hT hip hchain hok
    exact ⟨hInv, hlip, fun k => k.elim0⟩
  | cons e es ih =>
    intro s tPrev T hInv hlip hT hip hchain hok
    rw [List.map_cons] at hchain
    rcases hchain with _ | ⟨hlt, htl⟩
    have hok0 : DwellTickOK s e := hok ⟨0, Nat.succ_pos _⟩
    obtain ⟨hInv1, hP1, _, hfire⟩ := dwell_tick e s hInv hok0
    obtain ⟨hl1, hi1⟩ := hfire (by rw [hlip]; exact hT)
    have hipnew : (updateTick e s).inPosition
        = decide (T + IN_POSITION_TIME_MS < e.time) := by
      rw [hi1, hlip, hip]
      by_cases hc : T + IN_POSITION_TIME_MS < tPrev
      · have hc2 : T + IN_POSITION_TIME_MS < e.time := hc.trans hlt
        simp [hc, hc2]
      · by_cases hd : T + IN_POSITION_TIME_MS < e.time
        · have hd2 : IN_POSITION_TIME_MS < e.time - T := by omega
          simp [hc, hd, hd2]
        · have hd2 : ¬ IN_POSITION_TIME_MS < e.time - T := by omega
          simp [hc, hd, hd2]
    have hok2 : ∀ k : Fin es.length,
        DwellTickOK (runTicks (updateTick e s) (es.take k.1)) (es.get k) :=
      fun k => hok ⟨k.1 + 1, Nat.succ_lt_succ k.2⟩
    obtain ⟨ha, hb, hc⟩ :=
      ih (updateTick e s) e.time T hInv1 (hl1.trans hlip) hT hipnew htl hok2
    refine ⟨ha, hb, ?_⟩
    intro k
    match k with
    | ⟨0, h0⟩ => exact hipnew
    | ⟨j + 1, hj⟩ => exact hc ⟨j, Nat.lt_of_succ_lt_succ hj⟩

/-- C7.  The in-position debounce: starting from a calibrated, enabled,
settled controller whose dwell timer is unarmed and whose in-position
flag is down, run any sequence of ticks with strictly increasing
timestamps, the first at time `T ≠ 0`, during which the angle error
stays inside `LIFT_ANGLE_TOL` and the power stays below the burnout
threshold (so every tick takes the under-tolerance PID branch).  Then
after each tick the `IsInPosition()` flag reads
`decide (T + IN_POSITION_TIME_MS < t)` where `t` is that tick's time:
the flag is still false on the arming tick at `T` (never latched on the
first under-tolerance tick) and on every tick up to and including
`T + IN_POSITION_TIME_MS`, and is true on every later tick. -/
theorem in_position_dwell (e₀ : TickEnv) (es : List TickEnv) (s₀ : LCState)
    (hInv : DwellInv s₀)
    (hlip : s₀.lastInPositionTime = 0)
    (hip : s₀.inPosition = false)
    (hT : e₀.time ≠ 0)
    (hchain : List.Chain (fun a b => a < b) e₀.time (es.map TickEnv.time))
    (hok : ∀ k : Fin (e₀ :: es).length,
        DwellTickOK (runTicks s₀ ((e₀ :: es).take k.1)) ((e₀ :: es).get k)) :
    ∀ k : Fin (e₀ :: es).length,
      (runTicks s₀ ((e₀ :: es).take (k.1 + 1))).inPosition
        = decide (e₀.time + IN_POSITION_TIME_MS < ((e₀ :: es).get k).time) := by
  have hok0 : DwellTickOK s₀ e₀ := hok ⟨0, Nat.succ_pos _⟩
  obtain ⟨hInv1, hP1, harm, _⟩ := dwell_tick e₀ s₀ hInv hok0
  obtain ⟨hl1, hi1⟩ := harm hlip
  have hip1 : (updateTick e₀ s₀).inPosition
      = decide (e₀.time + IN_POSITION_TIME_MS < e₀.time) := by
    rw [hi1, hip]
    symm
    simp only [decide_eq_false_iff_not]
    omega
  obtain ⟨ha, hb, hc⟩ :=
    dwell_run es (updateTick e₀ s₀) e₀.time e₀.time hInv1 hl1 hT hip1 hchain
      (fun k => hok ⟨k.1 + 1, Nat.succ_lt_succ k.2⟩)
  intro k
  match k with
  | ⟨0, h0⟩ => exact hip1
  | ⟨j + 1, hj⟩ => exact hc ⟨j, Nat.lt_of_succ_lt_succ hj⟩

/-- The dwell-scenario start state: the calibrated sample state with the
in-position flag down (as after a fresh `SetDesiredAngle`). -/
def dwellState : LCState := { sampleCalibrated with inPosition := false }

theorem in_position_dwell_witness :
    (runTicks dwellState [quietEnv 100, quietEnv 150]).inPosition = false ∧
    (runTicks dwellState [quietEnv 100, quietEnv 150, quietEnv 201]).inPosition
      = true := by
  have h := in_position_dwell (quietEnv 100) [quietEnv 150, quietEnv 201] dwellState
    ⟨rfl, rfl, rfl, rfl, rfl, rfl, rfl⟩ rfl rfl (by decide)
    (List.Chain.cons (by decide) (List.Chain.cons (by decide) List.Chain.nil))
    (by with_unfolding_all decide)
  exact ⟨h ⟨1, by decide⟩, h ⟨2, by decide⟩⟩

end LiftController

namespace LiftController

/-! ## C5: one calibration lifecycle -/

theorem calibSwitch_tamper (e : TickEnv) (s : LCState) :
    (calibSwitch e s).tamperFired = s.tamperFired := by
  simp only [calibSwitch]
  repeat' split
  all_goals simp [calibCompleteBody, setPower, onMotorCalibrated, resetAnglePosition]

/-- Each run of the tamper check either raises the ghost flag or changes
nothing but the observed-minimum angle and the abort counter. -/
theorem calibTamperCheck_cases (t : LCState) :
    (calibTamperCheck t).tamperFired = true ∨
    ∃ lo cnt, calibTamperCheck t
      = { t with lowLiftAngleDuringCalib := lo, liftAngleAbortCount := cnt } := by
  simp only [calibTamperCheck]
  repeat' split
  all_goals first
    | exact Or.inl rfl
    | exact Or.inr ⟨_, _, rfl⟩

theorem calibTamperCheck_tamper_mono (t : LCState) (h : t.tamperFired = true) :
    (calibTamperCheck t).tamperFired = true := by
  rcases calibTamperCheck_cases t with hf | ⟨lo, cnt, hq⟩
  · exact hf
  · rw [hq]
    exact h

theorem calibTamperCheck_of_idle {s : LCState} (h : s.calState = .idle) :
    calibTamperCheck s = s := by
  simp [calibTamperCheck, isCalibrating, h]

theorem calibrationUpdate_tamper_mono (e : TickEnv) (t : LCState)
    (h : t.tamperFired = true) :
    (calibrationUpdate e t).tamperFired = true := by
  unfold calibrationUpdate
  split
  · exact h
  · exact calibTamperCheck_tamper_mono _ (by rw [calibSwitch_tamper]; exact h)

theorem calibSwitch_lower (e : TickEnv) (s : LCState)
    (hst : s.calState = .lowerLift) :
    (calibSwitch e s).calState = .waitForStop ∧
    (calibSwitch e s).isCalibrated = s.isCalibrated ∧
    (calibSwitch e s).completeVisits = s.completeVisits ∧
    (calibSwitch e s).tamperFired = s.tamperFired ∧
    (calibSwitch e s).burnoutPowerThresh = s.burnoutPowerThresh := by
  simp [calibSwitch, hst, setPower]

theorem calibSwitch_wait (e : TickEnv) (s : LCState)
    (hst : s.calState = .waitForStop) :
    ((calibSwitch e s).calState = .waitForStop ∨
      (calibSwitch e s).calState = .setCurrAngle) ∧
    (calibSwitch e s).isCalibrated = s.isCalibrated ∧
    (calibSwitch e s).completeVisits = s.completeVisits ∧
    (calibSwitch e s).tamperFired = s.tamperFired ∧
    (calibSwitch e s).burnoutPowerThresh = s.burnoutPowerThresh := by
  simp only [calibSwitch, hst, setPower]
  repeat' split
  all_goals first
    | exact ⟨Or.inr rfl, rfl, rfl, rfl, rfl⟩
    | exact ⟨Or.inl hst, rfl, rfl, rfl, rfl⟩
    | exact ⟨Or.inl rfl, rfl, rfl, rfl, rfl⟩

theorem calibSwitch_set (e : TickEnv) (s : LCState)
    (hst : s.calState = .setCurrAngle) :
    ((calibSwitch e s).calState = .idle ∧ (calibSwitch e s).isCalibrated = true ∧
     (calibSwitch e s).completeVisits = s.completeVisits + 1 ∧
     (calibSwitch e s).power = 0 ∧
     (calibSwitch e s).tamperFired = s.tamperFired ∧
     (calibSwitch e s).burnoutPowerThresh = s.burnoutPowerThresh) ∨
    calibSwitch e s = s := by
  simp only [calibSwitch, hst]
  split
  · exact Or.inl
      (by simp [calibCompleteBody, setPower, onMotorCalibrated, resetAnglePosition])
  · exact Or.inr rfl

/-- The fields C5 observes pass unchanged through the pose filter and the
encoder-validity latch of the tick opening. -/
theorem updateTickPre_c5 (e : TickEnv) (s : LCState) :
    (updateTickPre e s).isCalibrated
        = (calibrationUpdate e { s with reachedClip := false }).isCalibrated ∧
    (updateTickPre e s).calState
        = (calibrationUpdate e { s with reachedClip := false }).calState ∧
    (updateTickPre e s).completeVisits
        = (calibrationUpdate e { s with reachedClip := false }).completeVisits ∧
    (updateTickPre e s).tamperFired
        = (calibrationUpdate e { s with reachedClip := false }).tamperFired ∧
    (updateTickPre e s).burnoutPowerThresh
        = (calibrationUpdate e { s with reachedClip := false }).burnoutPowerThresh ∧
    (updateTickPre e s).power
        = (calibrationUpdate e { s with reachedClip := false }).power := by
  simp only [updateTickPre, poseAndSpeedFilterUpdate]
  split
  all_goals exact ⟨rfl, rfl, rfl, rfl, rfl, rfl⟩

end LiftController

namespace LiftController

theorem disableInternal_cal5 (now : ℕ) (b : Bool) (s : LCState) :
    (disableInternal now b s).calState = s.calState ∧
    (disableInternal now b s).isCalibrated = s.isCalibrated ∧
    (disableInternal now b s).completeVisits = s.completeVisits ∧
    (disableInternal now b s).tamperFired = s.tamperFired ∧
    (disableInternal now b s).burnoutPowerThresh = s.burnoutPowerThresh := by
  simp only [disableInternal, setPower, isCalibrating]
  repeat' split
  all_goals simp

theorem disableInternal_power0 (now : ℕ) (b : Bool) {s : LCState}
    (hp0 : s.power = 0) : (disableInternal now b s).power = 0 := by
  simp only [disableInternal, setPower, isCalibrating]
  repeat' split
  all_goals simp [hp0]

theorem enableInternal_cal5 (s : LCState) :
    (enableInternal s).calState = s.calState ∧
    (enableInternal s).isCalibrated = s.isCalibrated ∧
    (enableInternal s).completeVisits = s.completeVisits ∧
    (enableInternal s).tamperFired = s.tamperFired ∧
    (enableInternal s).burnoutPowerThresh = s.burnoutPowerThresh := by
  simp only [enableInternal, resetAnglePosition]
  split
  all_goals simp

theorem enableInternal_power (s : LCState) :
    (enableInternal s).power = s.power := by
  simp only [enableInternal, resetAnglePosition]
  split
  all_goals simp

theorem chargerGate_c5 (e : TickEnv) (s : LCState) (hp0 : s.power = 0) :
    (chargerGate e s).calState = s.calState ∧
    (chargerGate e s).isCalibrated = s.isCalibrated ∧
    (chargerGate e s).completeVisits = s.completeVisits ∧
    (chargerGate e s).tamperFired = s.tamperFired ∧
    (chargerGate e s).burnoutPowerThresh = s.burnoutPowerThresh ∧
    (chargerGate e s).power = 0 := by
  unfold chargerGate
  split
  · obtain ⟨d1, d2, d3, d4, d5⟩ := disableInternal_cal5 e.time false s
    exact ⟨d1, d2, d3, d4, d5, disableInternal_power0 e.time false hp0⟩
  · split
    · obtain ⟨d1, d2, d3, d4, d5⟩ := enableInternal_cal5 s
      exact ⟨d1, d2, d3, d4, d5, (enableInternal_power s).trans hp0⟩
    · exact ⟨rfl, rfl, rfl, rfl, rfl, hp0⟩

theorem unbraceSettleCheck_cal5 (e : TickEnv) (s : LCState) :
    (unbraceSettleCheck e s).calState = s.calState ∧
    (unbraceSettleCheck e s).isCalibrated = s.isCalibrated ∧
    (unbraceSettleCheck e s).completeVisits = s.completeVisits ∧
    (unbraceSettleCheck e s).tamperFired = s.tamperFired ∧
    (unbraceSettleCheck e s).burnoutPowerThresh = s.burnoutPowerThresh := by
  simp only [unbraceSettleCheck, resetAnglePosition]
  split
  all_goals simp

theorem loadCheckBlock_some_cal5 {e : TickEnv} {s t : LCState}
    (h : loadCheckBlock e s = some t) :
    t.calState = s.calState ∧ t.isCalibrated = s.isCalibrated ∧
    t.completeVisits = s.completeVisits ∧ t.tamperFired = s.tamperFired ∧
    t.burnoutPowerThresh = s.burnoutPowerThresh := by
  unfold loadCheckBlock at h
  split at h
  · split at h
    · cases h; exact ⟨rfl, rfl, rfl, rfl, rfl⟩
    · split at h
      · cases h; exact ⟨rfl, rfl, rfl, rfl, rfl⟩
      · cases h
  · cases h; exact ⟨rfl, rfl, rfl, rfl, rfl⟩

theorem pidPowerStage_cal5 (e : TickEnv) (t : LCState) :
    (pidPowerStage e t).calState = t.calState ∧
    (pidPowerStage e t).isCalibrated = t.isCalibrated ∧
    (pidPowerStage e t).completeVisits = t.completeVisits ∧
    (pidPowerStage e t).tamperFired = t.tamperFired ∧
    (pidPowerStage e t).burnoutPowerThresh = t.burnoutPowerThresh := by
  simp only [pidPowerStage]
  repeat' split
  all_goals simp

theorem pidInPositionStage_cal5 (e : TickEnv) (t : LCState) :
    (pidInPositionStage e t).calState = t.calState ∧
    (pidInPositionStage e t).isCalibrated = t.isCalibrated ∧
    (pidInPositionStage e t).completeVisits = t.completeVisits ∧
    (pidInPositionStage e t).tamperFired = t.tamperFired ∧
    (pidInPositionStage e t).burnoutPowerThresh = t.burnoutPowerThresh := by
  simp only [pidInPositionStage]
  repeat' split
  all_goals simp

theorem pidFinishStage_cal5 (t : LCState) :
    (pidFinishStage t).calState = t.calState ∧
    (pidFinishStage t).isCalibrated = t.isCalibrated ∧
    (pidFinishStage t).completeVisits = t.completeVisits ∧
    (pidFinishStage t).tamperFired = t.tamperFired ∧
    (pidFinishStage t).burnoutPowerThresh = t.burnoutPowerThresh := by
  simp [pidFinishStage, setPower]

theorem pidSection_cal5 (e : TickEnv) (t : LCState) :
    (pidSection e t).calState = t.calState ∧
    (pidSection e t).isCalibrated = t.isCalibrated ∧
    (pidSection e t).completeVisits = t.completeVisits ∧
    (pidSection e t).tamperFired = t.tamperFired ∧
    (pidSection e t).burnoutPowerThresh = t.burnoutPowerThresh := by
  obtain ⟨a1, a2, a3, a4, a5⟩ := pidPowerStage_cal5 e t
  obtain ⟨b1, b2, b3, b4, b5⟩ := pidInPositionStage_cal5 e (pidPowerStage e t)
  obtain ⟨c1, c2, c3, c4, c5⟩ :=
    pidFinishStage_cal5 (pidInPositionStage e (pidPowerStage e t))
  exact ⟨c1.trans (b1.trans a1), c2.trans (b2.trans a2), c3.trans (b3.trans a3),
    c4.trans (b4.trans a4), c5.trans (b5.trans a5)⟩

theorem motorBurnoutProtection_cvTamper (e : TickEnv) (s : LCState) :
    (motorBurnoutProtection e s).2.completeVisits = s.completeVisits ∧
    (motorBurnoutProtection e s).2.tamperFired = s.tamperFired := by
  unfold motorBurnoutProtection
  repeat' split
  · exact ⟨rfl, rfl⟩
  · exact ⟨rfl, rfl⟩
  · obtain ⟨_, _, d3, d4, _⟩ :=
      disableInternal_cal5 e.time true
        { s with msgs := s.msgs ++ [.motorAutoEnabled false] }
    exact ⟨d3, d4⟩
  · exact ⟨rfl, rfl⟩
  · exact ⟨rfl, rfl⟩

theorem motorBurnoutProtection_quiet (e : TickEnv) (s : LCState)
    (hpw : absQ s.power < s.burnoutPowerThresh) :
    motorBurnoutProtection e s = (false, { s with potentialBurnoutStartTime := 0 }) := by
  simp [motorBurnoutProtection, hpw]

end LiftController

namespace LiftController

theorem updateEnabledTail_c5 (e : TickEnv) (s : LCState)
    (hp0 : s.power = 0) (hth : 0 < s.burnoutPowerThresh) :
    (updateEnabledTail e s).calState = s.calState ∧
    (updateEnabledTail e s).isCalibrated = s.isCalibrated ∧
    (updateEnabledTail e s).completeVisits = s.completeVisits ∧
    (updateEnabledTail e s).tamperFired = s.tamperFired ∧
    (updateEnabledTail e s).burnoutPowerThresh = s.burnoutPowerThresh := by
  have hpw : absQ s.power < s.burnoutPowerThresh := by
    rw [hp0]
    simpa [absQ] using hth
  unfold updateEnabledTail
  split
  · exact unbraceSettleCheck_cal5 e s
  · split
    · rename_i x heq
      rw [motorBurnoutProtection_quiet e s hpw] at heq
      simp at heq
    · rename_i x heq
      rw [motorBurnoutProtection_quiet e s hpw] at heq
      injection heq with h1 h2
      subst h2
      split
      · exact ⟨rfl, rfl, rfl, rfl, rfl⟩
      · rename_i u heq2
        obtain ⟨l1, l2, l3, l4, l5⟩ := loadCheckBlock_some_cal5 heq2
        obtain ⟨p1, p2, p3, p4, p5⟩ := pidSection_cal5 e u
        exact ⟨p1.trans l1, p2.trans l2, p3.trans l3, p4.trans l4, p5.trans l5⟩

theorem updateEnabledTail_enable_c5 (e : TickEnv) (m : LCState)
    (hp0 : m.power = 0) (hth : 0 < m.burnoutPowerThresh) :
    (updateEnabledTail e (enableInternal m)).calState = m.calState ∧
    (updateEnabledTail e (enableInternal m)).isCalibrated = m.isCalibrated ∧
    (updateEnabledTail e (enableInternal m)).completeVisits = m.completeVisits ∧
    (updateEnabledTail e (enableInternal m)).tamperFired = m.tamperFired ∧
    (updateEnabledTail e (enableInternal m)).burnoutPowerThresh
      = m.burnoutPowerThresh := by
  obtain ⟨e1, e2, e3, e4, e5⟩ := enableInternal_cal5 m
  obtain ⟨u1, u2, u3, u4, u5⟩ := updateEnabledTail_c5 e (enableInternal m)
    ((enableInternal_power m).trans hp0) (by rw [e5]; exact hth)
  exact ⟨u1.trans e1, u2.trans e2, u3.trans e3, u4.trans e4, u5.trans e5⟩

theorem updateTickMain_c5 (e : TickEnv) (s : LCState)
    (hp0 : s.power = 0) (hth : 0 < s.burnoutPowerThresh) :
    (updateTickMain e s).calState = s.calState ∧
    (updateTickMain e s).isCalibrated = s.isCalibrated ∧
    (updateTickMain e s).completeVisits = s.completeVisits ∧
    (updateTickMain e s).tamperFired = s.tamperFired ∧
    (updateTickMain e s).burnoutPowerThresh = s.burnoutPowerThresh := by
  obtain ⟨g1, g2, g3, g4, g5, gp⟩ := chargerGate_c5 e s hp0
  have gth : 0 < (chargerGate e s).burnoutPowerThresh := by
    rw [g5]
    exact hth
  simp only [updateTickMain]
  split
  · split
    · exact ⟨g1, g2, g3, g4, g5⟩
    · split
      · exact ⟨g1, g2, g3, g4, g5⟩
      · split
        · obtain ⟨u1, u2, u3, u4, u5⟩ := updateEnabledTail_enable_c5 e
            { chargerGate e s with
                msgs := (chargerGate e s).msgs ++ [LCMsg.motorAutoEnabled true] }
            gp gth
          exact ⟨u1.trans g1, u2.trans g2, u3.trans g3, u4.trans g4, u5.trans g5⟩
        · exact ⟨g1, g2, g3, g4, g5⟩
  · obtain ⟨u1, u2, u3, u4, u5⟩ := updateEnabledTail_c5 e (chargerGate e s) gp gth
    exact ⟨u1.trans g1, u2.trans g2, u3.trans g3, u4.trans g4, u5.trans g5⟩

theorem updateEnabledTail_tamper (e : TickEnv) (s : LCState) :
    (updateEnabledTail e s).tamperFired = s.tamperFired := by
  unfold updateEnabledTail
  split
  · exact (unbraceSettleCheck_cal5 e s).2.2.2.1
  · obtain ⟨-, m4⟩ := motorBurnoutProtection_cvTamper e s
    split
    · rename_i x heq
      rw [heq] at m4
      exact ((unbraceSettleCheck_cal5 e x).2.2.2.1).trans m4
    · rename_i x heq
      rw [heq] at m4
      split
      · exact m4
      · rename_i u heq2
        obtain ⟨-, -, -, l4, -⟩ := loadCheckBlock_some_cal5 heq2
        exact ((pidSection_cal5 e u).2.2.2.1).trans (l4.trans m4)

theorem chargerGate_tamper (e : TickEnv) (s : LCState) :
    (chargerGate e s).tamperFired = s.tamperFired := by
  unfold chargerGate
  split
  · exact (disableInternal_cal5 e.time false s).2.2.2.1
  · split
    · exact (enableInternal_cal5 s).2.2.2.1
    · rfl

theorem updateTickMain_tamper (e : TickEnv) (s : LCState) :
    (updateTickMain e s).tamperFired = s.tamperFired := by
  have g4 := chargerGate_tamper e s
  simp only [updateTickMain]
  split
  · split
    · exact g4
    · split
      · exact g4
      · split
        · exact ((updateEnabledTail_tamper e _).trans
            ((enableInternal_cal5 _).2.2.2.1)).trans g4
        · exact g4
  · exact (updateEnabledTail_tamper e _).trans g4

theorem updateTick_tamper (e : TickEnv) (s : LCState) :
    (updateTick e s).tamperFired
      = (calibrationUpdate e { s with reachedClip := false }).tamperFired := by
  obtain ⟨-, -, -, p4, -, -⟩ := updateTickPre_c5 e s
  simp only [updateTick]
  split
  · exact p4
  · exact (updateTickMain_tamper e _).trans p4

theorem updateTick_tamper_mono (e : TickEnv) (s : LCState)
    (h : s.tamperFired = true) : (updateTick e s).tamperFired = true := by
  rw [updateTick_tamper]
  exact calibrationUpdate_tamper_mono e _ h

theorem runTicks_tamper_mono (es : List TickEnv) : ∀ s : LCState,
    s.tamperFired = true → (runTicks s es).tamperFired = true := by
  induction es with
  | nil => exact fun s h => h
  | cons e es ih => exact fun s h => ih (updateTick e s) (updateTick_tamper_mono e s h)

end LiftController

namespace LiftController

theorem calibrationUpdate_of_uncal {e : TickEnv} {t : LCState}
    (h : t.isCalibrated = false) :
    calibrationUpdate e t = calibTamperCheck (calibSwitch e t) := by
  simp [calibrationUpdate, h]

/-- One tick from the `LCS_LOWER_LIFT` boundary state: either the tamper
abort fires, or the tick lands in `LCS_WAIT_FOR_STOP`, still
uncalibrated, with the C5 bookkeeping fields untouched. -/
theorem lowerTick_cases (e : TickEnv) (s : LCState)
    (hcal : s.isCalibrated = false) (hst : s.calState = .lowerLift) :
    (updateTick e s).tamperFired = true ∨
    ((updateTick e s).isCalibrated = false ∧
     (updateTick e s).calState = .waitForStop ∧
     (updateTick e s).completeVisits = s.completeVisits ∧
     (updateTick e s).tamperFired = s.tamperFired ∧
     (updateTick e s).burnoutPowerThresh = s.burnoutPowerThresh) := by
  have hcu : calibrationUpdate e { s with reachedClip := false }
      = calibTamperCheck (calibSwitch e { s with reachedClip := false }) :=
    calibrationUpdate_of_uncal hcal
  obtain ⟨w1, w2, w3, w4, w5⟩ := calibSwitch_lower e { s with reachedClip := false } hst
  rcases calibTamperCheck_cases (calibSwitch e { s with reachedClip := false })
    with hf | ⟨lo, cnt, hq⟩
  · left
    rw [updateTick_tamper, hcu]
    exact hf
  · right
    obtain ⟨p1, p2, p3, p4, p5, p6⟩ := updateTickPre_c5 e s
    have hcIsCal : (calibrationUpdate e { s with reachedClip := false }).isCalibrated
        = false := by
      rw [hcu, hq]
      exact w2.trans hcal
    have hpre : (updateTickPre e s).isCalibrated = false := p1.trans hcIsCal
    have hred : updateTick e s = updateTickPre e s := by
      simp only [updateTick, hpre, Bool.not_false, if_true]
    refine ⟨by rw [hred]; exact hpre, ?_, ?_, ?_, ?_⟩
    · rw [hred]
      refine p2.trans ?_
      rw [hcu, hq]
      exact w1
    · rw [hred]
      refine p3.trans ?_
      rw [hcu, hq]
      exact w3
    · rw [hred]
      refine p4.trans ?_
      rw [hcu, hq]
      exact w4
    · rw [hred]
      refine p5.trans ?_
      rw [hcu, hq]
      exact w5

/-- One tick from the `LCS_WAIT_FOR_STOP` boundary state: either the
tamper abort fires, or the tick lands in `LCS_WAIT_FOR_STOP` or
`LCS_SET_CURR_ANGLE`, still uncalibrated. -/
theorem waitTick_cases (e : TickEnv) (s : LCState)
    (hcal : s.isCalibrated = false) (hst : s.calState = .waitForStop) :
    (updateTick e s).tamperFired = true ∨
    ((updateTick e s).isCalibrated = false ∧
     ((updateTick e s).calState = .waitForStop ∨
       (updateTick e s).calState = .setCurrAngle) ∧
     (updateTick e s).completeVisits = s.completeVisits ∧
     (updateTick e s).tamperFired = s.tamperFired ∧
     (updateTick e s).burnoutPowerThresh = s.burnoutPowerThresh) := by
  have hcu : calibrationUpdate e { s with reachedClip := false }
      = calibTamperCheck (calibSwitch e { s with reachedClip := false }) :=
    calibrationUpdate_of_uncal hcal
  obtain ⟨w1, w2, w3, w4, w5⟩ := calibSwitch_wait e { s with reachedClip := false } hst
  rcases calibTamperCheck_cases (calibSwitch e { s with reachedClip := false })
    with hf | ⟨lo, cnt, hq⟩
  · left
    rw [updateTick_tamper, hcu]
    exact hf
  · right
    obtain ⟨p1, p2, p3, p4, p5, p6⟩ := updateTickPre_c5 e s
    have hcIsCal : (calibrationUpdate e { s with reachedClip := false }).isCalibrated
        = false := by
      rw [hcu, hq]
      exact w2.trans hcal
    have hpre : (updateTickPre e s).isCalibrated = false := p1.trans hcIsCal
    have hred : updateTick e s = updateTickPre e s := by
      simp only [updateTick, hpre, Bool.not_false, if_true]
    refine ⟨by rw [hred]; exact hpre, ?_, ?_, ?_, ?_⟩
    · rw [hred]
      rcases w1 with w1 | w1
      · exact Or.inl (p2.trans (by rw [hcu, hq]; exact w1))
      · exact Or.inr (p2.trans (by rw [hcu, hq]; exact w1))
    · rw [hred]
      refine p3.trans ?_
      rw [hcu, hq]
      exact w3
    · rw [hred]
      refine p4.trans ?_
      rw [hcu, hq]
      exact w4
    · rw [hred]
      refine p5.trans ?_
      rw [hcu, hq]
      exact w5

/-- One tick from the `LCS_SET_CURR_ANGLE` boundary state: either the
tamper abort fires, or the calibration completes this tick (visiting
`LCS_COMPLETE` once — the ghost counter — and falling through to
`LCS_IDLE`, now calibrated), or the tick waits in place. -/
theorem setTick_cases (e : TickEnv) (s : LCState)
    (hcal : s.isCalibrated = false) (hst : s.calState = .setCurrAngle)
    (hth : 0 < s.burnoutPowerThresh) :
    (updateTick e s).tamperFired = true ∨
    ((updateTick e s).isCalibrated = true ∧
     (updateTick e s).calState = .idle ∧
     (updateTick e s).completeVisits = s.completeVisits + 1 ∧
     (updateTick e s).tamperFired = s.tamperFired ∧
     (updateTick e s).burnoutPowerThresh = s.burnoutPowerThresh) ∨
    ((updateTick e s).isCalibrated = false ∧
     (updateTick e s).calState = .setCurrAngle ∧
     (updateTick e s).completeVisits = s.completeVisits ∧
     (updateTick e s).tamperFired = s.tamperFired ∧
     (updateTick e s).burnoutPowerThresh = s.burnoutPowerThresh) := by
  have hcu : calibrationUpdate e { s with reachedClip := false }
      = calibTamperCheck (calibSwitch e { s with reachedClip := false }) :=
    calibrationUpdate_of_uncal hcal
  rcases calibSwitch_set e { s with reachedClip := false } hst with
    ⟨c1, c2, c3, c4, c5, c6⟩ | heqid
  · right; left
    have hcueq : calibrationUpdate e { s with reachedClip := false }
        = calibSwitch e { s with reachedClip := false } :=
      hcu.trans (calibTamperCheck_of_idle c1)
    obtain ⟨p1, p2, p3, p4, p5, p6⟩ := updateTickPre_c5 e s
    have q1 : (updateTickPre e s).isCalibrated = true := by
      rw [p1, hcueq]
      exact c2
    have q2 : (updateTickPre e s).calState = .idle := by
      rw [p2, hcueq]
      exact c1
    have q3 : (updateTickPre e s).completeVisits = s.completeVisits + 1 := by
      rw [p3, hcueq]
      exact c3
    have q4 : (updateTickPre e s).tamperFired = s.tamperFired := by
      rw [p4, hcueq]
      exact c5
    have q5 : (updateTickPre e s).burnoutPowerThresh = s.burnoutPowerThresh := by
      rw [p5, hcueq]
      exact c6
    have q6 : (updateTickPre e s).power = 0 := by
      rw [p6, hcueq]
      exact c4
    have hred : updateTick e s = updateTickMain e (updateTickPre e s) := by
      simp only [updateTick, q1, Bool.not_true, Bool.false_eq_true, if_false]
    obtain ⟨m1, m2, m3, m4, m5⟩ :=
      updateTickMain_c5 e (updateTickPre e s) q6 (by rw [q5]; exact hth)
    exact ⟨by rw [hred]; exact m2.trans q1, by rw [hred]; exact m1.trans q2,
      by rw [hred]; exact m3.trans q3, by rw [hred]; exact m4.trans q4,
      by rw [hred]; exact m5.trans q5⟩
  · rcases calibTamperCheck_cases (calibSwitch e { s with reachedClip := false })
      with hf | ⟨lo, cnt, hq⟩
    · left
      rw [updateTick_tamper, hcu]
      exact hf
    · right; right
      obtain ⟨p1, p2, p3, p4, p5, p6⟩ := updateTickPre_c5 e s
      have hcIsCal : (calibrationUpdate e { s with reachedClip := false }).isCalibrated
          = false := by
        rw [hcu, hq, heqid]
        exact hcal
      have hpre : (updateTickPre e s).isCalibrated = false := p1.trans hcIsCal
      have hred : updateTick e s = updateTickPre e s := by
        simp only [updateTick, hpre, Bool.not_false, if_true]
      refine ⟨by rw [hred]; exact hpre, ?_, ?_, ?_, ?_⟩
      · rw [hred]
        refine p2.trans ?_
        rw [hcu, hq, heqid]
        exact hst
      · rw [hred]
        refine p3.trans ?_
        rw [hcu, hq, heqid]
      · rw [hred]
        refine p4.trans ?_
        rw [hcu, hq, heqid]
      · rw [hred]
        refine p5.trans ?_
        rw [hcu, hq, heqid]

end LiftController

namespace LiftController

/-- Running from an `LCS_SET_CURR_ANGLE` boundary state until the first
calibrated boundary, tamper-free: every boundary but the last is
`setCurrAngle` and uncalibrated, the last is `idle` and calibrated, and
the `LCS_COMPLETE` body ran exactly once. -/
theorem setPhase_run (envs : List TickEnv) : ∀ s : LCState,
    s.isCalibrated = false → s.calState = .setCurrAngle → 0 < s.burnoutPowerThresh →
    (runTicks s envs).isCalibrated = true →
    (∀ k, k < envs.length → (runTicks s (envs.take k)).isCalibrated = false) →
    (runTicks s envs).tamperFired = false →
    ∃ b, envs.length = b + 1 ∧
      (tickTrace s envs).map LCState.calState
        = List.replicate b LiftCalibState.setCurrAngle ++ [LiftCalibState.idle] ∧
      (tickTrace s envs).map LCState.isCalibrated
        = List.replicate b false ++ [true] ∧
      (runTicks s envs).completeVisits = s.completeVisits + 1 := by
  induction envs with
  | nil =>
    intro s hcal hst hth hfin hmin htf
    have h2 : s.isCalibrated = true := hfin
    rw [hcal] at h2
    exact Bool.noConfusion h2
  | cons e es ih =>
    intro s hcal hst hth hfin hmin htf
    rcases setTick_cases e s hcal hst hth with hf | ⟨h1, h2, h3, h4, h5⟩ |
      ⟨h1, h2, h3, h4, h5⟩
    · exfalso
      have hT := runTicks_tamper_mono es (updateTick e s) hf
      have htf2 : (runTicks (updateTick e s) es).tamperFired = false := htf
      rw [hT] at htf2
      exact Bool.noConfusion htf2
    · cases es with
      | nil =>
        refine ⟨0, rfl, ?_, ?_, ?_⟩
        · simp [tickTrace, h2]
        · simp [tickTrace, h1]
        · exact h3
      | cons e2 es2 =>
        exfalso
        have hm1 : (runTicks s (List.take 1 (e :: e2 :: es2))).isCalibrated = false :=
          hmin 1 (by simp)
        have hm2 : (updateTick e s).isCalibrated = false := hm1
        rw [h1] at hm2
        exact Bool.noConfusion hm2
    · obtain ⟨b, hlen, htr, hic, hcv⟩ := ih (updateTick e s) h1 h2
        (by rw [h5]; exact hth) hfin (fun k hk => hmin (k + 1) (Nat.succ_lt_succ hk)) htf
      refine ⟨b + 1, by rw [List.length_cons, hlen], ?_, ?_, ?_⟩
      · show (updateTick e s).calState ::
            (tickTrace (updateTick e s) es).map LCState.calState = _
        rw [htr, h2]
        simp [List.replicate_succ]
      · show (updateTick e s).isCalibrated ::
            (tickTrace (updateTick e s) es).map LCState.isCalibrated = _
        rw [hic, h1]
        simp [List.replicate_succ]
      · exact hcv.trans (by rw [h3])

/-- Running from an `LCS_WAIT_FOR_STOP` boundary state until the first
calibrated boundary, tamper-free: some waiting boundaries, then at least
one `setCurrAngle` boundary, then the single calibrated `idle` boundary. -/
theorem waitPhase_run (envs : List TickEnv) : ∀ s : LCState,
    s.isCalibrated = false → s.calState = .waitForStop → 0 < s.burnoutPowerThresh →
    (runTicks s envs).isCalibrated = true →
    (∀ k, k < envs.length → (runTicks s (envs.take k)).isCalibrated = false) →
    (runTicks s envs).tamperFired = false →
    ∃ a b, 1 ≤ b ∧ envs.length = a + b + 1 ∧
      (tickTrace s envs).map LCState.calState
        = List.replicate a LiftCalibState.waitForStop ++
          List.replicate b LiftCalibState.setCurrAngle ++ [LiftCalibState.idle] ∧
      (tickTrace s envs).map LCState.isCalibrated
        = List.replicate (a + b) false ++ [true] ∧
      (runTicks s envs).completeVisits = s.completeVisits + 1 := by
  induction envs with
  | nil =>
    intro s hcal hst hth hfin hmin htf
    have h2 : s.isCalibrated = true := hfin
    rw [hcal] at h2
    exact Bool.noConfusion h2
  | cons e es ih =>
    intro s hcal hst hth hfin hmin htf
    rcases waitTick_cases e s hcal hst with hf | ⟨h1, h2or, h3, h4, h5⟩
    · exfalso
      have hT := runTicks_tamper_mono es (updateTick e s) hf
      have htf2 : (runTicks (updateTick e s) es).tamperFired = false := htf
      rw [hT] at htf2
      exact Bool.noConfusion htf2
    · rcases h2or with h2 | h2
      · obtain ⟨a, b, hb, hlen, htr, hic, hcv⟩ := ih (updateTick e s) h1 h2
          (by rw [h5]; exact hth) hfin
          (fun k hk => hmin (k + 1) (Nat.succ_lt_succ hk)) htf
        refine ⟨a + 1, b, hb, by rw [List.length_cons, hlen]; omega, ?_, ?_, ?_⟩
        · show (updateTick e s).calState ::
              (tickTrace (updateTick e s) es).map LCState.calState = _
          rw [htr, h2]
          simp [List.replicate_succ]
        · show (updateTick e s).isCalibrated ::
              (tickTrace (updateTick e s) es).map LCState.isCalibrated = _
          rw [hic, h1]
          have hx : a + 1 + b = a + b + 1 := by omega
          rw [hx]
          simp [List.replicate_succ]
        · exact hcv.trans (by rw [h3])
      · obtain ⟨b, hlen, htr, hic, hcv⟩ := setPhase_run es (updateTick e s) h1 h2
          (by rw [h5]; exact hth) hfin
          (fun k hk => hmin (k + 1) (Nat.succ_lt_succ hk)) htf
        refine ⟨0, b + 1, by omega, by rw [List.length_cons, hlen]; omega, ?_, ?_, ?_⟩
        · show (updateTick e s).calState ::
              (tickTrace (updateTick e s) es).map LCState.calState = _
          rw [htr, h2]
          simp [List.replicate_succ]
        · show (updateTick e s).isCalibrated ::
              (tickTrace (updateTick e s) es).map LCState.isCalibrated = _
          rw [hic, h1]
          simp [List.replicate_succ]
        · exact hcv.trans (by rw [h3])

/-- C5.  One calibration lifecycle.  Consider any call to
`StartCalibrationRoutine` followed by the ticks up to the first boundary
at which `IsCalibrated()` holds, on an execution where the tamper abort
(ghost flag `tamperFired`) never fires.  Then: the call itself puts the
machine in `LCS_LOWER_LIFT` (visited exactly once, uncalibrated), the
subsequent boundary states are one contiguous run of `LCS_WAIT_FOR_STOP`,
then one contiguous run of `LCS_SET_CURR_ANGLE` (each entered exactly
once, in that order, each at least one tick long), and finally a single
`LCS_IDLE` boundary; `IsCalibrated()` is false at every boundary before
the last and true at the last; and the `LCS_COMPLETE` body (counted by
the ghost `completeVisits`, entered by the intentional fall-through from
`LCS_SET_CURR_ANGLE`) runs exactly once in the whole window.  The
`0 < burnoutPowerThresh` hypothesis reflects the non-simulator gains
(the threshold is a sum of positive terms). -/
theorem calibration_visits_once (s : LCState) (auto : Bool)
    (reason : MotorCalibrationReason) (envs : List TickEnv)
    (hth : 0 < s.burnoutPowerThresh)
    (hfin : (runTicks (startCalibrationRoutine auto reason s) envs).isCalibrated = true)
    (hmin : ∀ k, k < envs.length →
        (runTicks (startCalibrationRoutine auto reason s) (envs.take k)).isCalibrated
          = false)
    (htf : (runTicks (startCalibrationRoutine auto reason s) envs).tamperFired
        = false) :
    (startCalibrationRoutine auto reason s).calState = .lowerLift ∧
    (startCalibrationRoutine auto reason s).isCalibrated = false ∧
    ∃ a b, 1 ≤ a ∧ 1 ≤ b ∧ envs.length = a + b + 1 ∧
      (tickTrace (startCalibrationRoutine auto reason s) envs).map LCState.calState
        = List.replicate a LiftCalibState.waitForStop ++
          List.replicate b LiftCalibState.setCurrAngle ++ [LiftCalibState.idle] ∧
      (tickTrace (startCalibrationRoutine auto reason s) envs).map LCState.isCalibrated
        = List.replicate (a + b) false ++ [true] ∧
      (runTicks (startCalibrationRoutine auto reason s) envs).completeVisits
        = s.completeVisits + 1 := by
  refine ⟨rfl, rfl, ?_⟩
  cases envs with
  | nil =>
    have h2 : (startCalibrationRoutine auto reason s).isCalibrated = true := hfin
    exact Bool.noConfusion h2
  | cons e es =>
    rcases lowerTick_cases e (startCalibrationRoutine auto reason s) rfl rfl with
      hf | ⟨h1, h2, h3, h4, h5⟩
    · exfalso
      have hT := runTicks_tamper_mono es
        (updateTick e (startCalibrationRoutine auto reason s)) hf
      have htf2 : (runTicks (updateTick e (startCalibrationRoutine auto reason s))
          es).tamperFired = false := htf
      rw [hT] at htf2
      exact Bool.noConfusion htf2
    · obtain ⟨a, b, hb, hlen, htr, hic, hcv⟩ := waitPhase_run es
        (updateTick e (startCalibrationRoutine auto reason s)) h1 h2
        (by rw [h5]; exact hth) hfin
        (fun k hk => hmin (k + 1) (Nat.succ_lt_succ hk)) htf
      refine ⟨a + 1, b, by omega, hb, by rw [List.length_cons, hlen]; omega, ?_, ?_, ?_⟩
      · show (updateTick e (startCalibrationRoutine auto reason s)).calState ::
            (tickTrace (updateTick e (startCalibrationRoutine auto reason s)) es).map
              LCState.calState = _
        rw [htr, h2]
        simp [List.replicate_succ]
      · show (updateTick e (startCalibrationRoutine auto reason s)).isCalibrated ::
            (tickTrace (updateTick e (startCalibrationRoutine auto reason s)) es).map
              LCState.isCalibrated = _
        rw [hic, h1]
        have hx : a + 1 + b = a + b + 1 := by omega
        rw [hx]
        simp [List.replicate_succ]
      · refine hcv.trans ?_
        rw [h3]
        rfl

/-- The environments of a minimal concrete calibration run: the lowering
tick, one waiting tick that satisfies the 500 ms stop condition, and one
settling tick that satisfies the 250 ms relax condition. -/
def c5Envs : List TickEnv := [quietEnv 0, quietEnv 501, quietEnv 752]

theorem calibration_visits_once_witness :
    (tickTrace (startCalibrationRoutine false .other (initState sampleParams))
        c5Envs).map LCState.calState
      = [LiftCalibState.waitForStop, LiftCalibState.setCurrAngle,
         LiftCalibState.idle] ∧
    (runTicks (startCalibrationRoutine false .other (initState sampleParams))
        c5Envs).completeVisits = (initState sampleParams).completeVisits + 1 := by
  obtain ⟨-, -, a, b, ha, hb, hlen, htr, hic, hcv⟩ :=
    calibration_visits_once (initState sampleParams) false .other c5Envs
      (by with_unfolding_all decide)
      (by with_unfolding_all decide)
      (by with_unfolding_all decide)
      (by with_unfolding_all decide)
  have h3 : c5Envs.length = 3 := rfl
  rw [h3] at hlen
  have ha1 : a = 1 := by omega
  have hb1 : b = 1 := by omega
  subst ha1
  subst hb1
  refine ⟨?_, hcv⟩
  rw [htr]
  rfl

end LiftController
